import Mathlib

/-!
# SPI master DMA driver of the LPC54102 port (`fsl_spi_dma.c`)

A shallow embedding of `platform/mcu/lpc54102/drivers/fsl_spi_dma.c`.

* Pointers are natural numbers, `0` being `NULL`; a pointer to a structure that the
  driver dereferences is an `Option` of the structure's value.
* 32-bit words are natural numbers; casts and stores to `uint32_t` are written `u32`,
  the complement of a 32-bit word is `not32`.
* The driver is built without assertions (`NDEBUG`): every `assert` of the source is
  followed by the `if` that returns the error, and that `if` is what is embedded.
* Every call that the driver makes to the DMA driver, every write to an SPI control
  register, every invocation of the user callback and every call of the blocking
  transfer primitive is appended to a list of `Call`s.  `SPI_GetInstance`,
  `SPI_GetConfig`, `SPI_IsRxFifoEnabled` and `SPI_IsTxFifoEnabled` are read-only
  lookups: their answers are fields of `Env`.
* Reads of `xfer->txData[i]` are recorded by index in `Outcome.txLoads`.
-/

namespace SpiDma

/-! ## Machine words -/

/-- Conversion to `uint32_t`. -/
def u32 (n : Nat) : Nat := n % 2 ^ 32

/-- Bitwise complement of a 32-bit word (`~x`). -/
def not32 (n : Nat) : Nat := 2 ^ 32 - 1 - n % 2 ^ 32

/-- Update of one element of a per-instance array. -/
def setAt {α : Type} (f : Nat → α) (i : Nat) (v : α) : Nat → α :=
  fun j => if j = i then v else f j

/-! ## Headers that are not part of the sources -/

/-- Constants and macros that the driver takes from `fsl_common.h`, `fsl_spi.h` and the
device header.  These headers are not among the sources, so the values are parameters of
the embedding. -/
structure Headers where
  /-- Generic status `kStatus_Success`. -/
  kStatus_Success : Int
  /-- Generic status `kStatus_InvalidArgument`. -/
  kStatus_InvalidArgument : Int
  /-- Generic status `kStatus_NoTransferInProgress`. -/
  kStatus_NoTransferInProgress : Int
  /-- SPI status `kStatus_SPI_Busy` of `fsl_spi.h`. -/
  kStatus_SPI_Busy : Int
  /-- Transfer flag `kSPI_FrameDelay`. -/
  kSPI_FrameDelay : Nat
  /-- Transfer flag `kSPI_FrameAssert`. -/
  kSPI_FrameAssert : Nat
  /-- Transfer flag `kSPI_ReceiveIgnore`. -/
  kSPI_ReceiveIgnore : Nat
  /-- Mask `SPI_DEASSERT_ALL`. -/
  SPI_DEASSERT_ALL : Nat
  /-- Macro `SPI_DEASSERT_SSELNUM(n)`. -/
  SPI_DEASSERT_SSELNUM : Nat → Nat
  /-- Macro `SPI_TXDATCTL_LEN(x)`. -/
  SPI_TXDATCTL_LEN : Nat → Nat

/-- The values of the NXP SDK headers for the LPC5410x: generic statuses 0, 4 and 6,
`kStatus_SPI_Busy = MAKE_STATUS(kStatusGroup_LPC_SPI, 0) = 7600`, end-of-transfer bit 20,
end-of-frame bit 21, receive-ignore bit 22, slave-select bits 16..19, length field in
bits 24..27. -/
def sdkHeaders : Headers where
  kStatus_Success := 0
  kStatus_InvalidArgument := 4
  kStatus_NoTransferInProgress := 6
  kStatus_SPI_Busy := 7600
  kSPI_FrameDelay := 0x200000
  kSPI_FrameAssert := 0x100000
  kSPI_ReceiveIgnore := 0x400000
  SPI_DEASSERT_ALL := 0xF0000
  SPI_DEASSERT_SSELNUM := fun n => 1 <<< (n + 16)
  SPI_TXDATCTL_LEN := fun x => (x <<< 24) &&& 0xF000000

/-! ## Data model -/

/-- Value `kSPI_Idle` of `enum _spi_dma_states_t`. -/
def kSPI_Idle : Int := 0

/-- Value `kSPI_Busy` of `enum _spi_dma_states_t`. -/
def kSPI_Busy : Int := 1

/-- Modelled from the spec: `spi_dma_handle_t` is declared in `fsl_spi_dma.h`, which is
not among the sources.  The fields are those of the spec's TransferHandle, under the
names the driver uses: the two in-progress flags, the transmit and receive channel
handles, the user callback and its user data, the state and the recorded transfer size.
The state holds whatever value the driver assigns to it. -/
structure spi_dma_handle_t where
  txInProgress : Bool
  rxInProgress : Bool
  txHandle : Nat
  rxHandle : Nat
  callback : Nat
  userData : Nat
  state : Int
  transferSize : Nat
deriving DecidableEq, Repr

/-- Modelled from the spec: `spi_transfer_t` of `fsl_spi.h` (not among the sources), the
spec's TransferRequest: transmit buffer, receive buffer, flags and byte count. -/
structure spi_transfer_t where
  txData : Nat
  rxData : Nat
  configFlags : Nat
  dataSize : Nat
deriving DecidableEq, Repr

/-- Modelled from the spec: `spi_half_duplex_transfer_t` of `fsl_spi.h` (not among the
sources), the spec's HalfDuplexRequest. -/
structure spi_half_duplex_transfer_t where
  txData : Nat
  rxData : Nat
  txDataSize : Nat
  rxDataSize : Nat
  configFlags : Nat
  isPcsAssertInTransfer : Bool
  isTransmitFirst : Bool
deriving DecidableEq, Repr

/-- Modelled from the spec: the fields of `spi_config_t` (`fsl_spi.h`, not among the
sources) that the driver reads: the data width as stored in the configuration (the
driver tests it against `7U`) and the slave-select number. -/
structure spi_config_t where
  dataWidth : Nat
  sselNum : Nat
deriving DecidableEq, Repr

/-- The per-instance dummy transmit words, `spi_dma_txdummy_t`. -/
structure spi_dma_txdummy_t where
  lastWord : Nat
  word : Nat
deriving DecidableEq, Repr

/-- An entry of `s_dmaPrivateHandle`, `spi_dma_private_handle_t`: the peripheral base and
whether the entry points to the handle that is being threaded through the calls. -/
structure spi_dma_private_handle_t where
  base : Nat
  handle : Bool
deriving DecidableEq, Repr

/-- The static per-instance arrays of the driver that the driver itself writes. -/
structure Scratch where
  s_dmaPrivateHandle : Nat → spi_dma_private_handle_t
  s_txDummy : Nat → spi_dma_txdummy_t
  s_txLastData : Nat → Nat

/-- Source and destination addresses handed to the DMA driver. -/
inductive Addr where
  /-- Address `&VFIFO->SPI[instance].RXDATSPI`. -/
  | VFIFO_RXDATSPI (i : Nat)
  /-- Address `&base->RXDAT`. -/
  | RXDAT (base : Nat)
  /-- Address `&VFIFO->SPI[instance].TXDATSPI`. -/
  | VFIFO_TXDATSPI (i : Nat)
  /-- Address `&base->TXDAT`. -/
  | TXDAT (base : Nat)
  /-- Address `&base->TXDATCTL`. -/
  | TXDATCTL (base : Nat)
  /-- A buffer of the caller (`xfer->txData` or `xfer->rxData`). -/
  | mem (p : Nat)
  /-- Address `&s_rxDummy`. -/
  | s_rxDummy
  /-- Address `&s_txLastData[instance]`. -/
  | s_txLastData (i : Nat)
  /-- Address `&s_txDummy[instance].word`. -/
  | s_txDummy_word (i : Nat)
  /-- Address `&s_txDummy[instance].lastWord`. -/
  | s_txDummy_lastWord (i : Nat)
deriving DecidableEq, Repr

/-- The transfer types of the DMA driver that the SPI driver uses. -/
inductive dma_transfer_type_t where
  | kDMA_PeripheralToMemory
  | kDMA_MemoryToPeripheral
  | kDMA_StaticToStatic
deriving DecidableEq, Repr

/-- The fields of `dma_xfercfg_t` that the driver names. -/
structure dma_xfercfg_t where
  valid : Bool
  swtrig : Bool
  intA : Bool
  intB : Bool
  byteWidth : Nat
  srcInc : Nat
  dstInc : Nat
  transferCount : Nat
deriving DecidableEq, Repr

/-- Modelled from the spec: `dma_transfer_config_t` as filled by `DMA_PrepareTransfer`
(the DMA driver is not among the sources): source, destination, element width, the count
argument, the direction, the optional chained descriptor (`&s_spi_descriptor_table[i]`
is `some i`), and the two completion-interrupt enables `xfercfg.intA`, `xfercfg.intB`
that the SPI driver overwrites on the chained paths. -/
structure dma_transfer_config_t where
  srcAddr : Addr
  dstAddr : Addr
  byteWidth : Nat
  transferBytes : Nat
  transferType : dma_transfer_type_t
  nextDesc : Option Nat
  intA : Bool
  intB : Bool
deriving DecidableEq, Repr

/-- The two DMA channels of a handle: `handle->txHandle` and `handle->rxHandle`. -/
inductive Chan where
  | tx
  | rx
deriving DecidableEq, Repr

/-- The two completion entry points that the driver registers. -/
inductive CallbackFn where
  | SPI_TxDMACallback
  | SPI_RxDMACallback
deriving DecidableEq, Repr

/-- The observable actions of the driver.  A DMA channel is given by the handle field it
was read from and by the pointer stored there. -/
inductive Call where
  | DMA_PrepareTransfer (cfg : dma_transfer_config_t)
  | DMA_CreateDescriptor (desc : Nat) (xfercfg : dma_xfercfg_t) (src dst : Addr)
      (next : Option Nat)
  | DMA_SubmitTransfer (ch : Chan) (h : Nat) (cfg : dma_transfer_config_t)
  | DMA_StartTransfer (ch : Chan) (h : Nat)
  | DMA_AbortTransfer (ch : Chan) (h : Nat)
  | DMA_GetRemainingBytes (ch : Chan) (h : Nat)
  | DMA_SetCallback (ch : Chan) (h : Nat) (fn : CallbackFn) (ctx : Nat)
  /-- The store `base->TXCTL = v`. -/
  | write_TXCTL (base : Nat) (v : Nat)
  /-- The store of `v` to the upper half-word of `VFIFO->SPI[i].TXDATSPI`. -/
  | write_FIFO_TXCTL (i : Nat) (v : Nat)
  /-- The call `(spiHandle->callback)(base, spiHandle, status, userData)`. -/
  | userCallback (fn : Nat) (base : Nat) (status : Int) (userData : Nat)
  | SPI_MasterTransferBlocking (base : Nat) (xfer : spi_transfer_t)
deriving DecidableEq, Repr

/-- What the collaborators answer during one call of the driver. -/
structure Env where
  /-- Result of `SPI_GetInstance(base)`. -/
  inst : Int
  /-- The configuration that `SPI_GetConfig(base)` points to. -/
  config : spi_config_t
  /-- Result of `SPI_IsRxFifoEnabled(base)`. -/
  rxFifoEnabled : Bool
  /-- Result of `SPI_IsTxFifoEnabled(base)`. -/
  txFifoEnabled : Bool
  /-- Status returned by `DMA_SubmitTransfer` on the receive channel. -/
  submitRx : Int
  /-- Status returned by `DMA_SubmitTransfer` on the transmit channel. -/
  submitTx : Int
  /-- Status returned by `SPI_MasterTransferBlocking`. -/
  blocking : Int
  /-- Result of `DMA_GetRemainingBytes` on the receive channel. -/
  remainingBytes : Nat
  /-- The array `s_dummyData`. -/
  s_dummyData : Nat → Nat
  /-- Byte memory, for the reads of `xfer->txData[i]`. -/
  mem : Nat → Nat
  /-- Value of `xfercfg.intA` after `DMA_PrepareTransfer`. -/
  prepIntA : Bool
  /-- Value of `xfercfg.intB` after `DMA_PrepareTransfer`. -/
  prepIntB : Bool

/-- The result of a driver call: returned status, the handle, the static arrays, the
actions in program order and the indices at which `xfer->txData` was read. -/
structure Outcome where
  status : Int
  handle : Option spi_dma_handle_t
  scratch : Scratch
  calls : List Call
  txLoads : List Nat

/-- Modelled from the spec: `DMA_PrepareTransfer` of the DMA driver (not among the
sources) "builds an in-memory transfer descriptor" from source, destination, element
width, count, direction and optional chained descriptor. -/
def DMA_PrepareTransfer (env : Env) (src dst : Addr) (byteWidth transferBytes : Nat)
    (type : dma_transfer_type_t) (nextDesc : Option Nat) : dma_transfer_config_t :=
  { srcAddr := src, dstAddr := dst, byteWidth := byteWidth, transferBytes := transferBytes,
    transferType := type, nextDesc := nextDesc, intA := env.prepIntA, intB := env.prepIntB }

/-- The byte `xfer->txData[i]`: the byte of memory at address `xfer->txData + i` (for a
`NULL` pointer, the byte at address `i`). -/
def loadTx (env : Env) (xfer : spi_transfer_t) (i : Nat) : Nat :=
  env.mem (xfer.txData + i) % 256

/-! ## The driver -/

/-- Function `XferToFifoWR`, lines 124-129. -/
def XferToFifoWR (K : Headers) (xfer : spi_transfer_t) (fifowr : Nat) : Nat :=
  let w1 := fifowr |||
    (if xfer.configFlags &&& u32 K.kSPI_FrameDelay ≠ 0 then u32 K.kSPI_FrameDelay else 0)
  let w2 := w1 |||
    (if xfer.configFlags &&& u32 K.kSPI_FrameAssert ≠ 0 then u32 K.kSPI_FrameAssert else 0)
  w2 |||
    (if xfer.configFlags &&& u32 K.kSPI_ReceiveIgnore ≠ 0 then u32 K.kSPI_ReceiveIgnore else 0)

/-- Function `SpiConfigToFifoWR`, lines 131-136. -/
def SpiConfigToFifoWR (K : Headers) (config : spi_config_t) (fifowr : Nat) : Nat :=
  let w1 := fifowr |||
    u32 (K.SPI_DEASSERT_ALL &&& not32 (K.SPI_DEASSERT_SSELNUM config.sselNum))
  w1 ||| u32 (K.SPI_TXDATCTL_LEN config.dataWidth)

/-- The condition of lines 144-145, 279-280, 300-301, 347-348 and 402-403:
`(xfer->configFlags & kSPI_FrameAssert) &&
 ((spi_config_p->dataWidth > 7U) ? (xfer->dataSize > 2) : (xfer->dataSize > 1))`. -/
def lastWordSplit (K : Headers) (config : spi_config_t) (xfer : spi_transfer_t) : Bool :=
  decide (xfer.configFlags &&& u32 K.kSPI_FrameAssert ≠ 0) &&
    (if config.dataWidth > 7 then decide (xfer.dataSize > 2) else decide (xfer.dataSize > 1))

/-- Function `SPI_SetupDummy`, lines 138-152. -/
def SPI_SetupDummy (K : Headers) (env : Env) (dummy : spi_dma_txdummy_t)
    (xfer : spi_transfer_t) (spi_config_p : spi_config_t) : spi_dma_txdummy_t :=
  let i := env.inst.toNat
  let d := env.s_dummyData i % 256
  let word := SpiConfigToFifoWR K spi_config_p (XferToFifoWR K xfer ((d <<< 8) ||| d))
  if lastWordSplit K spi_config_p xfer then
    let lastWord := SpiConfigToFifoWR K spi_config_p (XferToFifoWR K xfer ((d <<< 8) ||| d))
    { lastWord := lastWord, word := word &&& not32 (u32 K.kSPI_FrameAssert) }
  else
    { dummy with word := word }

/-- The handle after `memset(handle, 0, sizeof(*handle))`. -/
def zeroHandle : spi_dma_handle_t :=
  { txInProgress := false, rxInProgress := false, txHandle := 0, rxHandle := 0,
    callback := 0, userData := 0, state := 0, transferSize := 0 }

/-- Function `SPI_MasterTransferCreateHandleDMA`, lines 154-197. -/
def SPI_MasterTransferCreateHandleDMA (K : Headers) (env : Env) (s : Scratch) (base : Nat)
    (handle : Option spi_dma_handle_t) (callback userData txHandle rxHandle : Nat) :
    Outcome :=
  if base = 0 then
    { status := K.kStatus_InvalidArgument, handle := handle, scratch := s, calls := [],
      txLoads := [] }
  else
    match handle with
    | none =>
      { status := K.kStatus_InvalidArgument, handle := none, scratch := s, calls := [],
        txLoads := [] }
    | some _ =>
      let i := env.inst.toNat
      let h : spi_dma_handle_t :=
        { zeroHandle with txHandle := txHandle, rxHandle := rxHandle, callback := callback,
                          userData := userData, state := kSPI_Idle }
      let s1 : Scratch :=
        { s with s_dmaPrivateHandle :=
                   setAt s.s_dmaPrivateHandle i { base := base, handle := true } }
      { status := K.kStatus_Success, handle := some h, scratch := s1,
        calls := [Call.DMA_SetCallback Chan.tx h.txHandle CallbackFn.SPI_TxDMACallback i,
                  Call.DMA_SetCallback Chan.rx h.rxHandle CallbackFn.SPI_RxDMACallback i],
        txLoads := [] }

/-- The receive programming of `SPI_MasterTransferDMA`, lines 240-269. -/
def rxTransferConfig (env : Env) (base i : Nat) (spi_config_p : spi_config_t)
    (xfer : spi_transfer_t) : dma_transfer_config_t :=
  if xfer.rxData ≠ 0 then
    if env.rxFifoEnabled then
      DMA_PrepareTransfer env (Addr.VFIFO_RXDATSPI i) (Addr.mem xfer.rxData)
        (if spi_config_p.dataWidth > 7 then 2 else 1) xfer.dataSize
        dma_transfer_type_t.kDMA_PeripheralToMemory none
    else
      DMA_PrepareTransfer env (Addr.RXDAT base) (Addr.mem xfer.rxData)
        (if spi_config_p.dataWidth > 7 then 2 else 1) xfer.dataSize
        dma_transfer_type_t.kDMA_PeripheralToMemory none
  else
    if env.rxFifoEnabled then
      DMA_PrepareTransfer env (Addr.VFIFO_RXDATSPI i) Addr.s_rxDummy
        (if spi_config_p.dataWidth > 7 then 2 else 1) xfer.dataSize
        dma_transfer_type_t.kDMA_StaticToStatic none
    else
      DMA_PrepareTransfer env (Addr.RXDAT base) Addr.s_rxDummy
        (if spi_config_p.dataWidth > 7 then 2 else 1) xfer.dataSize
        dma_transfer_type_t.kDMA_StaticToStatic none

/-- The `tmp_xfercfg` of lines 303-310, 350-357 and 405-412. -/
def lastWordXfercfg : dma_xfercfg_t :=
  { valid := true, swtrig := true, intA := true, intB := false, byteWidth := 4,
    srcInc := 0, dstInc := 0, transferCount := 1 }

/-- What the transmit programming of `SPI_MasterTransferDMA` (lines 296-468) has done
when it reaches `DMA_SubmitTransfer(handle->txHandle, &xferConfig)`. -/
structure TxProgram where
  scratch : Scratch
  calls : List Call
  xferConfig : dma_transfer_config_t

/-- The transmit programming of `SPI_MasterTransferDMA`, lines 296-468, up to the call of
`DMA_SubmitTransfer` that ends each of its branches. -/
def txProgram (K : Headers) (env : Env) (s : Scratch) (base i : Nat)
    (spi_config_p : spi_config_t) (xfer : spi_transfer_t) : TxProgram :=
  if xfer.txData ≠ 0 then
    if env.txFifoEnabled then
      if lastWordSplit K spi_config_p xfer then
        let d := Call.DMA_CreateDescriptor i lastWordXfercfg (Addr.s_txLastData i)
          (Addr.VFIFO_TXDATSPI i) none
        let c :=
          if spi_config_p.dataWidth > 7 then
            DMA_PrepareTransfer env (Addr.mem xfer.txData) (Addr.VFIFO_TXDATSPI i) 2
              (xfer.dataSize - 2) dma_transfer_type_t.kDMA_MemoryToPeripheral (some i)
          else
            DMA_PrepareTransfer env (Addr.mem xfer.txData) (Addr.VFIFO_TXDATSPI i) 1
              (xfer.dataSize - 1) dma_transfer_type_t.kDMA_MemoryToPeripheral (some i)
        { scratch := s, calls := [d, Call.DMA_PrepareTransfer c],
          xferConfig := { c with intA := false, intB := false } }
      else
        let c :=
          if spi_config_p.dataWidth > 7 then
            DMA_PrepareTransfer env (Addr.mem xfer.txData) (Addr.VFIFO_TXDATSPI i) 2
              xfer.dataSize dma_transfer_type_t.kDMA_MemoryToPeripheral none
          else
            DMA_PrepareTransfer env (Addr.mem xfer.txData) (Addr.VFIFO_TXDATSPI i) 1
              xfer.dataSize dma_transfer_type_t.kDMA_MemoryToPeripheral none
        { scratch := s, calls := [Call.DMA_PrepareTransfer c], xferConfig := c }
    else
      if lastWordSplit K spi_config_p xfer then
        let d := Call.DMA_CreateDescriptor i lastWordXfercfg (Addr.s_txLastData i)
          (Addr.TXDATCTL base) none
        let c :=
          if spi_config_p.dataWidth > 7 then
            DMA_PrepareTransfer env (Addr.mem xfer.txData) (Addr.TXDAT base) 2
              (xfer.dataSize - 2) dma_transfer_type_t.kDMA_MemoryToPeripheral (some i)
          else
            DMA_PrepareTransfer env (Addr.mem xfer.txData) (Addr.TXDAT base) 1
              (xfer.dataSize - 1) dma_transfer_type_t.kDMA_MemoryToPeripheral (some i)
        { scratch := s, calls := [d, Call.DMA_PrepareTransfer c],
          xferConfig := { c with intA := false, intB := false } }
      else
        let c :=
          if spi_config_p.dataWidth > 7 then
            DMA_PrepareTransfer env (Addr.mem xfer.txData) (Addr.TXDAT base) 2
              xfer.dataSize dma_transfer_type_t.kDMA_MemoryToPeripheral none
          else
            DMA_PrepareTransfer env (Addr.mem xfer.txData) (Addr.TXDAT base) 1
              xfer.dataSize dma_transfer_type_t.kDMA_MemoryToPeripheral none
        { scratch := s, calls := [Call.DMA_PrepareTransfer c], xferConfig := c }
  else
    let s1 : Scratch :=
      { s with s_txDummy :=
                 setAt s.s_txDummy i (SPI_SetupDummy K env (s.s_txDummy i) xfer spi_config_p) }
    if lastWordSplit K spi_config_p xfer then
      let d :=
        if env.txFifoEnabled then
          Call.DMA_CreateDescriptor i lastWordXfercfg (Addr.s_txDummy_lastWord i)
            (Addr.VFIFO_TXDATSPI i) none
        else
          Call.DMA_CreateDescriptor i lastWordXfercfg (Addr.s_txDummy_lastWord i)
            (Addr.TXDATCTL base) none
      let c :=
        if env.txFifoEnabled then
          DMA_PrepareTransfer env (Addr.s_txDummy_word i) (Addr.VFIFO_TXDATSPI i)
            (if spi_config_p.dataWidth > 7 then 2 else 1)
            (if spi_config_p.dataWidth > 7 then xfer.dataSize - 2 else xfer.dataSize - 1)
            dma_transfer_type_t.kDMA_StaticToStatic (some i)
        else
          DMA_PrepareTransfer env (Addr.s_txDummy_word i) (Addr.TXDATCTL base)
            (if spi_config_p.dataWidth > 7 then 2 else 1)
            (if spi_config_p.dataWidth > 7 then xfer.dataSize - 2 else xfer.dataSize - 1)
            dma_transfer_type_t.kDMA_StaticToStatic (some i)
      { scratch := s1, calls := [d, Call.DMA_PrepareTransfer c],
        xferConfig := { c with intA := false, intB := false } }
    else
      let c :=
        if env.txFifoEnabled then
          DMA_PrepareTransfer env (Addr.s_txDummy_word i) (Addr.VFIFO_TXDATSPI i)
            (if spi_config_p.dataWidth > 7 then 2 else 1) xfer.dataSize
            dma_transfer_type_t.kDMA_StaticToStatic none
        else
          DMA_PrepareTransfer env (Addr.s_txDummy_word i) (Addr.TXDAT base)
            (if spi_config_p.dataWidth > 7 then 2 else 1) xfer.dataSize
            dma_transfer_type_t.kDMA_StaticToStatic none
      { scratch := s1, calls := [Call.DMA_PrepareTransfer c], xferConfig := c }

/-- The control word `tmp` of lines 275-277, before the end-of-transfer bit is cleared. -/
def controlWord (K : Headers) (spi_config_p : spi_config_t) (xfer : spi_transfer_t) : Nat :=
  SpiConfigToFifoWR K spi_config_p (XferToFifoWR K xfer 0)

/-- The `else` block of `SPI_MasterTransferDMA`, lines 231-482: what the driver does
once the arguments have been checked and the handle was not found busy. -/
def transferBody (K : Headers) (env : Env) (s : Scratch) (base : Nat)
    (h : spi_dma_handle_t) (x : spi_transfer_t) : Outcome :=
  let i := env.inst.toNat
  let spi_config_p := env.config
  let h1 : spi_dma_handle_t :=
    { h with state := K.kStatus_SPI_Busy, transferSize := x.dataSize }
  /- Receive; the status that `DMA_SubmitTransfer` returns at line 270 is discarded. -/
  let rxConfig := rxTransferConfig env base i spi_config_p x
  let h2 : spi_dma_handle_t := { h1 with rxInProgress := true }
  let rxCalls : List Call :=
    [Call.DMA_PrepareTransfer rxConfig,
     Call.DMA_SubmitTransfer Chan.rx h.rxHandle rxConfig,
     Call.DMA_StartTransfer Chan.rx h.rxHandle]
  /- Transmit -/
  let tmp0 := controlWord K spi_config_p x
  let split := lastWordSplit K spi_config_p x
  let s1 : Scratch :=
    if split then
      if spi_config_p.dataWidth > 7 then
        let lastData :=
          (tmp0 ||| (loadTx env x (x.dataSize - 1) <<< 8)) ||| loadTx env x (x.dataSize - 2)
        { s with s_txLastData := setAt s.s_txLastData i lastData }
      else
        let lastData := tmp0 ||| loadTx env x (x.dataSize - 1)
        { s with s_txLastData := setAt s.s_txLastData i lastData }
    else s
  let loads : List Nat :=
    if split then
      if spi_config_p.dataWidth > 7 then [x.dataSize - 1, x.dataSize - 2]
      else [x.dataSize - 1]
    else []
  let tmp := if split then tmp0 &&& not32 (u32 K.kSPI_FrameAssert) else tmp0
  let p := txProgram K env s1 base i spi_config_p x
  let result := env.submitTx
  let submitted : List Call :=
    rxCalls ++ p.calls ++ [Call.DMA_SubmitTransfer Chan.tx h.txHandle p.xferConfig]
  if result ≠ K.kStatus_Success then
    { status := result, handle := some h2, scratch := p.scratch, calls := submitted,
      txLoads := loads }
  else
    let h3 : spi_dma_handle_t := { h2 with txInProgress := true }
    let control : Call :=
      if env.txFifoEnabled then Call.write_FIFO_TXCTL i ((tmp >>> 16) % 2 ^ 16)
      else Call.write_TXCTL base tmp
    { status := result, handle := some h3, scratch := p.scratch,
      calls := submitted ++ [control, Call.DMA_StartTransfer Chan.tx h.txHandle],
      txLoads := loads }

/-- Function `SPI_MasterTransferDMA`, lines 199-483. -/
def SPI_MasterTransferDMA (K : Headers) (env : Env) (s : Scratch) (base : Nat)
    (handle : Option spi_dma_handle_t) (xfer : Option spi_transfer_t) : Outcome :=
  match handle, xfer with
  | none, _ =>
    { status := K.kStatus_InvalidArgument, handle := handle, scratch := s, calls := [],
      txLoads := [] }
  | some _, none =>
    { status := K.kStatus_InvalidArgument, handle := handle, scratch := s, calls := [],
      txLoads := [] }
  | some h, some x =>
    if x.dataSize = 0 then
      { status := K.kStatus_InvalidArgument, handle := some h, scratch := s, calls := [],
        txLoads := [] }
    else if env.inst < 0 then
      { status := K.kStatus_InvalidArgument, handle := some h, scratch := s, calls := [],
        txLoads := [] }
    else if h.state = kSPI_Busy then
      { status := K.kStatus_SPI_Busy, handle := some h, scratch := s, calls := [],
        txLoads := [] }
    else transferBody K env s base h x

/-- Function `SPI_MasterHalfDuplexTransferDMA`, lines 485-537. -/
def SPI_MasterHalfDuplexTransferDMA (K : Headers) (env : Env) (s : Scratch) (base : Nat)
    (handle : Option spi_dma_handle_t) (xfer : spi_half_duplex_transfer_t) : Outcome :=
  let t1 : spi_transfer_t :=
    if xfer.isTransmitFirst then
      { txData := xfer.txData, rxData := 0, configFlags := 0, dataSize := xfer.txDataSize }
    else
      { txData := 0, rxData := xfer.rxData, configFlags := 0, dataSize := xfer.rxDataSize }
  let t2 : spi_transfer_t :=
    if xfer.isPcsAssertInTransfer then
      { t1 with configFlags := xfer.configFlags &&& not32 (u32 K.kSPI_FrameAssert) }
    else
      { t1 with configFlags := xfer.configFlags ||| u32 K.kSPI_FrameAssert }
  let status := env.blocking
  if status ≠ K.kStatus_Success then
    { status := status, handle := handle, scratch := s,
      calls := [Call.SPI_MasterTransferBlocking base t2], txLoads := [] }
  else
    let t3 : spi_transfer_t :=
      if xfer.isTransmitFirst then
        { t2 with txData := 0, rxData := xfer.rxData, dataSize := xfer.rxDataSize }
      else
        { t2 with txData := xfer.txData, rxData := 0, dataSize := xfer.txDataSize }
    let t4 : spi_transfer_t := { t3 with configFlags := xfer.configFlags }
    let r := SPI_MasterTransferDMA K env s base handle (some t4)
    { r with calls := Call.SPI_MasterTransferBlocking base t2 :: r.calls }

/-- Function `SPI_RxDMACallback`, lines 539-557; `base` and `spiHandle` are the two
fields of the private handle that the DMA driver passes back as `userData`. -/
def SPI_RxDMACallback (K : Headers) (base : Nat) (spiHandle : spi_dma_handle_t) :
    spi_dma_handle_t × List Call :=
  let h1 : spi_dma_handle_t := { spiHandle with rxInProgress := false }
  if h1.txInProgress = false ∧ h1.rxInProgress = false then
    let h2 : spi_dma_handle_t := { h1 with state := kSPI_Idle }
    if h2.callback ≠ 0 then
      (h2, [Call.userCallback h2.callback base K.kStatus_Success h2.userData])
    else (h2, [])
  else (h1, [])

/-- Function `SPI_TxDMACallback`, lines 559-575. -/
def SPI_TxDMACallback (K : Headers) (base : Nat) (spiHandle : spi_dma_handle_t) :
    spi_dma_handle_t × List Call :=
  let h1 : spi_dma_handle_t := { spiHandle with txInProgress := false }
  if h1.txInProgress = false ∧ h1.rxInProgress = false then
    let h2 : spi_dma_handle_t := { h1 with state := kSPI_Idle }
    if h2.callback ≠ 0 then
      (h2, [Call.userCallback h2.callback base K.kStatus_Success h2.userData])
    else (h2, [])
  else (h1, [])

/-- Function `SPI_MasterTransferAbortDMA`, lines 577-590. -/
def SPI_MasterTransferAbortDMA (handle : spi_dma_handle_t) : spi_dma_handle_t × List Call :=
  let h1 : spi_dma_handle_t := { handle with txInProgress := false }
  let h2 : spi_dma_handle_t := { h1 with rxInProgress := false }
  ({ h2 with state := kSPI_Idle },
   [Call.DMA_AbortTransfer Chan.tx handle.txHandle,
    Call.DMA_AbortTransfer Chan.rx handle.rxHandle])

/-- The result of `SPI_MasterTransferGetCountDMA`: the status, the content of `*count`
(`none` when `count` is `NULL`) and the actions. -/
structure CountOutcome where
  status : Int
  count : Option Nat
  calls : List Call
deriving DecidableEq, Repr

/-- Function `SPI_MasterTransferGetCountDMA`, lines 592-615; `count` is the content of
`*count` at entry, `none` for a `NULL` pointer.  The subtraction is that of a 32-bit
`size_t`. -/
def SPI_MasterTransferGetCountDMA (K : Headers) (env : Env) (handle : spi_dma_handle_t)
    (count : Option Nat) : CountOutcome :=
  match count with
  | none => { status := K.kStatus_InvalidArgument, count := none, calls := [] }
  | some _ =>
    if handle.state ≠ kSPI_Busy then
      { status := K.kStatus_NoTransferInProgress, count := some 0, calls := [] }
    else
      let bytes := env.remainingBytes
      { status := K.kStatus_Success,
        count := some ((handle.transferSize + 2 ^ 32 - bytes % 2 ^ 32) % 2 ^ 32),
        calls := [Call.DMA_GetRemainingBytes Chan.rx handle.rxHandle] }

/-! ## Observations on the recorded actions -/

/-- The configuration submitted, when the action is `DMA_SubmitTransfer` on the
transmit channel. -/
def Call.txSubmit? : Call → Option dma_transfer_config_t
  | Call.DMA_SubmitTransfer Chan.tx _ cfg => some cfg
  | _ => none

/-- The configurations submitted to the transmit channel, in order. -/
def txSubmits (calls : List Call) : List dma_transfer_config_t :=
  calls.filterMap Call.txSubmit?

/-- Whether the action is a call of `DMA_CreateDescriptor`. -/
def Call.isCreateDescriptor : Call → Bool
  | Call.DMA_CreateDescriptor _ _ _ _ _ => true
  | _ => false

/-- Whether the action is `DMA_StartTransfer` on the transmit channel. -/
def Call.isTxStart : Call → Bool
  | Call.DMA_StartTransfer Chan.tx _ => true
  | _ => false

/-- Whether the action is a write of the control word, to `base->TXCTL` or to the
control half of the FIFO transmit register. -/
def Call.isControlWrite : Call → Bool
  | Call.write_TXCTL _ _ => true
  | Call.write_FIFO_TXCTL _ _ => true
  | _ => false

/-- Whether the action is an invocation of the user callback. -/
def Call.isUserCallback : Call → Bool
  | Call.userCallback _ _ _ _ => true
  | _ => false

/-- The configuration submitted, when the action is `DMA_SubmitTransfer` on the
receive channel. -/
def Call.rxSubmit? : Call → Option dma_transfer_config_t
  | Call.DMA_SubmitTransfer Chan.rx _ cfg => some cfg
  | _ => none

/-- The configurations submitted to the receive channel, in order. -/
def rxSubmits (calls : List Call) : List dma_transfer_config_t :=
  calls.filterMap Call.rxSubmit?

/-- Whether the action is `DMA_StartTransfer` on the receive channel. -/
def Call.isRxStart : Call → Bool
  | Call.DMA_StartTransfer Chan.rx _ => true
  | _ => false

/-- Whether the action is a submission or a start on either channel, or a write of the
control word. -/
def Call.isSubmitStartOrControl : Call → Bool
  | Call.DMA_SubmitTransfer _ _ _ => true
  | Call.DMA_StartTransfer _ _ => true
  | Call.write_TXCTL _ _ => true
  | Call.write_FIFO_TXCTL _ _ => true
  | _ => false

/-- The destination of the descriptor, when the action is `DMA_CreateDescriptor`. -/
def Call.descriptorDst? : Call → Option Addr
  | Call.DMA_CreateDescriptor _ _ _ dst _ => some dst
  | _ => none

/-- The final data that lines 285 and 289 merge into the last word:
`txData[dataSize-1] << 8 | txData[dataSize-2]` when `dataWidth > 7`, `txData[dataSize-1]`
otherwise. -/
def packedLastData (env : Env) (cfg : spi_config_t) (x : spi_transfer_t) : Nat :=
  if cfg.dataWidth > 7 then
    (loadTx env x (x.dataSize - 1) <<< 8) ||| loadTx env x (x.dataSize - 2)
  else loadTx env x (x.dataSize - 1)

/-- A request that `SPI_MasterTransferDMA` accepts on handle `h`: the byte count is not
zero, the instance is resolved and the busy check of line 226 does not fire. -/
def Accepted (env : Env) (h : spi_dma_handle_t) (x : spi_transfer_t) : Prop :=
  x.dataSize ≠ 0 ∧ 0 ≤ env.inst ∧ h.state ≠ kSPI_Busy

/-- The handle states that the driver can produce: `SPI_MasterTransferCreateHandleDMA`
on a non-null base and handle, followed by any sequence of `SPI_MasterTransferDMA` calls
(accepted or rejected), completion callbacks and aborts, with arbitrary answers of the
collaborators. -/
inductive Reachable (K : Headers) : spi_dma_handle_t → Prop where
  | create (env : Env) (s : Scratch) (base : Nat) (h0 : spi_dma_handle_t)
      (callback userData txHandle rxHandle : Nat) (h : spi_dma_handle_t)
      (hb : base ≠ 0)
      (hh : (SPI_MasterTransferCreateHandleDMA K env s base (some h0) callback userData
              txHandle rxHandle).handle = some h) : Reachable K h
  | transfer (env : Env) (s : Scratch) (base : Nat) (h : spi_dma_handle_t)
      (xfer : Option spi_transfer_t) (h1 : spi_dma_handle_t) (hr : Reachable K h)
      (hh : (SPI_MasterTransferDMA K env s base (some h) xfer).handle = some h1) :
      Reachable K h1
  | rxDone (base : Nat) (h : spi_dma_handle_t) (hr : Reachable K h) :
      Reachable K (SPI_RxDMACallback K base h).1
  | txDone (base : Nat) (h : spi_dma_handle_t) (hr : Reachable K h) :
      Reachable K (SPI_TxDMACallback K base h).1
  | abort (h : spi_dma_handle_t) (hr : Reachable K h) :
      Reachable K (SPI_MasterTransferAbortDMA h).1

/-! ## Concrete inputs -/

/-- All static arrays zero, as at start-up. -/
def scratch0 : Scratch :=
  { s_dmaPrivateHandle := fun _ => { base := 0, handle := false },
    s_txDummy := fun _ => { lastWord := 0, word := 0 },
    s_txLastData := fun _ => 0 }

/-- Instance 0, 8-bit frames on slave-select 0, FIFOs disabled, every DMA submission
succeeds, 3 bytes remain on the receive channel, transmit bytes `1, 2, 3, ...`. -/
def env8 : Env :=
  { inst := 0, config := { dataWidth := 7, sselNum := 0 }, rxFifoEnabled := false,
    txFifoEnabled := false, submitRx := 0, submitTx := 0, blocking := 0,
    remainingBytes := 3, s_dummyData := fun _ => 0xFF, mem := fun a => a % 251 + 1,
    prepIntA := true, prepIntB := false }

/-- As `env8` with 16-bit frames. -/
def env16 : Env := { env8 with config := { dataWidth := 15, sselNum := 0 } }

/-- As `env8`, but the DMA submission of the transmit channel fails with status 5000. -/
def envTxFail : Env := { env8 with submitTx := 5000 }

/-- The peripheral base used in the examples. -/
def base0 : Nat := 0x40084000

/-- A handle with a user callback, as `SPI_MasterTransferCreateHandleDMA` leaves it. -/
def handle0 : spi_dma_handle_t :=
  { zeroHandle with txHandle := 0x2000, rxHandle := 0x2010, callback := 0x8001,
                    userData := 0x3000, state := kSPI_Idle }

/-- A full-duplex request of 8 bytes without flags. -/
def xfer8 : spi_transfer_t :=
  { txData := 0x1000, rxData := 0x1100, configFlags := 0, dataSize := 8 }

/-- A full-duplex request of 5 bytes with the frame-assert flag of `sdkHeaders`. -/
def xfer5 : spi_transfer_t :=
  { txData := 0x1000, rxData := 0x1100, configFlags := 0x100000, dataSize := 5 }

/-- The handle `handle0` as a successful `SPI_MasterTransferDMA` of `xfer8` leaves it,
on the values of `sdkHeaders`. -/
def handleInFlight : spi_dma_handle_t :=
  { handle0 with txInProgress := true, rxInProgress := true, state := 7600,
                 transferSize := 8 }

/-- As `env8`, but the DMA submission of the receive channel fails with status 5000. -/
def envRxFail : Env := { env8 with submitRx := 5000 }

/-- As `env8`, but the blocking transfer fails with status 5000. -/
def envBlockingFail : Env := { env8 with blocking := 5000 }

/-- A half-duplex request: 2 bytes out, then 4 bytes in, chip select held between the
legs, with the frame-assert flag of `sdkHeaders`. -/
def halfDuplex0 : spi_half_duplex_transfer_t :=
  { txData := 0x1000, rxData := 0x1100, txDataSize := 2, rxDataSize := 4,
    configFlags := 0x100000, isPcsAssertInTransfer := true, isTransmitFirst := true }

/-- A receive-only request of 10 bytes without flags. -/
def xferRxOnly10 : spi_transfer_t :=
  { txData := 0, rxData := 0x1100, configFlags := 0, dataSize := 10 }

/-- A receive-only request of 10 bytes with the frame-assert flag of `sdkHeaders`. -/
def xferRxOnly10FA : spi_transfer_t :=
  { txData := 0, rxData := 0x1100, configFlags := 0x100000, dataSize := 10 }

/-- The request `xferRxOnly10FA` with a transmit buffer. -/
def xferBoth10FA : spi_transfer_t := { xferRxOnly10FA with txData := 0x1000 }

/-- A transmit-only request of 8 bytes without flags. -/
def xferTxOnly8 : spi_transfer_t :=
  { txData := 0x1000, rxData := 0, configFlags := 0, dataSize := 8 }

/-- A full-duplex request of 1 byte with the frame-assert flag of `sdkHeaders`. -/
def xfer1 : spi_transfer_t :=
  { txData := 0x1000, rxData := 0x1100, configFlags := 0x100000, dataSize := 1 }

end SpiDma

/-! ## Basic facts -/

namespace SpiDma

theorem transfer_of_accepted (K : Headers) (env : Env) (s : Scratch) (base : Nat)
    (h : spi_dma_handle_t) (x : spi_transfer_t) (hacc : Accepted env h x) :
    SPI_MasterTransferDMA K env s base (some h) (some x) = transferBody K env s base h x := by
  obtain ⟨hsz, hinst, hst⟩ := hacc
  have hinst' : ¬ env.inst < 0 := not_lt.mpr hinst
  simp [SPI_MasterTransferDMA, hsz, hinst', hst]

theorem transferBody_handle (K : Headers) (env : Env) (s : Scratch) (base : Nat)
    (h : spi_dma_handle_t) (x : spi_transfer_t) :
    (transferBody K env s base h x).handle =
      some { h with state := K.kStatus_SPI_Busy, transferSize := x.dataSize,
                    rxInProgress := true,
                    txInProgress :=
                      if env.submitTx = K.kStatus_Success then true else h.txInProgress } := by
  unfold transferBody
  by_cases hr : env.submitTx = K.kStatus_Success <;> simp [hr]

/-- With a header value of `kStatus_SPI_Busy` other than `kSPI_Busy`, the handle left by
an accepted request does not trip the busy check: the next request with a non-zero byte
count runs the whole transfer body again. -/
theorem transfer_after_transfer (K : Headers) (hK : K.kStatus_SPI_Busy ≠ kSPI_Busy)
    (env env2 : Env) (s s2 : Scratch) (base : Nat) (h h1 : spi_dma_handle_t)
    (x x2 : spi_transfer_t) (hacc : Accepted env h x)
    (hh : (SPI_MasterTransferDMA K env s base (some h) (some x)).handle = some h1)
    (hsz : x2.dataSize ≠ 0) (hinst : 0 ≤ env2.inst) :
    SPI_MasterTransferDMA K env2 s2 base (some h1) (some x2) =
      transferBody K env2 s2 base h1 x2 := by
  rw [transfer_of_accepted K env s base h x hacc, transferBody_handle] at hh
  have hst : h1.state = K.kStatus_SPI_Busy := by
    have := Option.some.inj hh
    rw [← this]
  exact transfer_of_accepted K env2 s2 base h1 x2 ⟨hsz, hinst, by rw [hst]; exact hK⟩

theorem lastWordSplit_of (K : Headers) (cfg : spi_config_t) (x : spi_transfer_t)
    (hfa : x.configFlags &&& u32 K.kSPI_FrameAssert ≠ 0)
    (hsz : if cfg.dataWidth > 7 then x.dataSize > 2 else x.dataSize > 1) :
    lastWordSplit K cfg x = true := by
  unfold lastWordSplit
  by_cases hw : cfg.dataWidth > 7
  · simp only [hw, if_true] at hsz
    simp [hfa, hw, hsz]
  · simp only [hw, if_false] at hsz
    simp [hfa, hw, hsz]

theorem lastWordSplit_of_le (K : Headers) (cfg : spi_config_t) (x : spi_transfer_t)
    (hsz : if cfg.dataWidth > 7 then x.dataSize ≤ 2 else x.dataSize ≤ 1) :
    lastWordSplit K cfg x = false := by
  unfold lastWordSplit
  by_cases hw : cfg.dataWidth > 7
  · simp only [hw, if_true] at hsz
    simp [hw, hsz]
  · simp only [hw, if_false] at hsz
    simp [hw, hsz]

theorem u32_lt (n : Nat) : u32 n < 2 ^ 32 :=
  Nat.mod_lt _ (by norm_num)

/-- A word that contains all bits of `F` keeps them in its upper half-word. -/
theorem upper_half_and (w F : Nat) (hF : F < 2 ^ 32) (hw : w &&& F = F) :
    ((w >>> 16) % 2 ^ 16) &&& (F >>> 16) = F >>> 16 := by
  apply Nat.eq_of_testBit_eq
  intro i
  have hbit : ∀ j, F.testBit j = true → w.testBit j = true := by
    intro j hj
    have hj2 := congrArg (fun n => Nat.testBit n j) hw
    simp only [Nat.testBit_land] at hj2
    rw [hj] at hj2
    simpa using hj2
  simp only [Nat.testBit_land, Nat.testBit_mod_two_pow, Nat.testBit_shiftRight]
  cases hFi : F.testBit (16 + i) with
  | false => simp
  | true =>
    have h1 := hbit _ hFi
    have h2 : i < 16 := by
      by_contra hge
      have hlt : F < 2 ^ (16 + i) :=
        lt_of_lt_of_le hF (Nat.pow_le_pow_right (by norm_num) (by omega))
      rw [Nat.testBit_lt_two_pow hlt] at hFi
      exact Bool.false_ne_true hFi
    simp [h1, h2]

/-- With the frame-assert flag in the request, the control word of lines 275-277 has the
frame-assert bit. -/
theorem controlWord_frameAssert (K : Headers) (cfg : spi_config_t) (x : spi_transfer_t)
    (hfa : x.configFlags &&& u32 K.kSPI_FrameAssert ≠ 0) :
    controlWord K cfg x &&& u32 K.kSPI_FrameAssert = u32 K.kSPI_FrameAssert := by
  unfold controlWord SpiConfigToFifoWR XferToFifoWR
  simp only [if_pos hfa]
  apply Nat.eq_of_testBit_eq
  intro i
  simp only [Nat.testBit_land, Nat.testBit_lor]
  cases Nat.testBit (u32 K.kSPI_FrameAssert) i <;> simp

/-- The busy/in-progress invariant holds in every reachable handle state as soon as the
header value `kStatus_SPI_Busy`, which line 236 stores in the state, is the `kSPI_Busy`
that lines 226 and 602 test. -/
theorem busy_iff_inProgress_of_eq (K : Headers) (hK : K.kStatus_SPI_Busy = kSPI_Busy)
    (h : spi_dma_handle_t) (hr : Reachable K h) :
    h.state = kSPI_Busy ↔ (h.txInProgress = true ∨ h.rxInProgress = true) := by
  induction hr with
  | create env s base h0 callback userData txHandle rxHandle h hb hh =>
    simp only [SPI_MasterTransferCreateHandleDMA, if_neg hb] at hh
    have hh2 := Option.some.inj hh
    subst hh2
    simp [zeroHandle, kSPI_Idle, kSPI_Busy]
  | transfer env s base h xfer h1 _ hh ih =>
    cases xfer with
    | none =>
      simp only [SPI_MasterTransferDMA] at hh
      have hh2 := Option.some.inj hh
      subst hh2
      exact ih
    | some x =>
      by_cases hacc : Accepted env h x
      · rw [transfer_of_accepted K env s base h x hacc, transferBody_handle] at hh
        have hh2 := Option.some.inj hh
        subst hh2
        simp [hK]
      · have hsame : (SPI_MasterTransferDMA K env s base (some h) (some x)).handle =
            some h := by
          unfold Accepted at hacc
          unfold SPI_MasterTransferDMA
          by_cases h1 : x.dataSize = 0
          · simp [h1]
          · by_cases h2 : env.inst < 0
            · simp [h1, h2]
            · by_cases h3 : h.state = kSPI_Busy
              · simp [h1, h2, h3]
              · exact absurd ⟨h1, not_lt.mp h2, h3⟩ hacc
        rw [hsame] at hh
        have hh2 := Option.some.inj hh
        subst hh2
        exact ih
  | rxDone base h _ ih =>
    unfold SPI_RxDMACallback
    cases htx : h.txInProgress <;> cases hcb : decide (h.callback = 0) <;>
      simp_all [kSPI_Idle, kSPI_Busy]
  | txDone base h _ ih =>
    unfold SPI_TxDMACallback
    cases hrx : h.rxInProgress <;> cases hcb : decide (h.callback = 0) <;>
      simp_all [kSPI_Idle, kSPI_Busy]
  | abort h _ _ =>
    simp [SPI_MasterTransferAbortDMA, kSPI_Idle, kSPI_Busy]

/-- The progress query on a handle whose state is `kSPI_Busy`: the branch of lines
608-614. -/
theorem getCount_of_busy (K : Headers) (env : Env) (h : spi_dma_handle_t) (c : Nat)
    (hb : h.state = kSPI_Busy) :
    SPI_MasterTransferGetCountDMA K env h (some c) =
      { status := K.kStatus_Success,
        count := some ((h.transferSize + 2 ^ 32 - env.remainingBytes % 2 ^ 32) % 2 ^ 32),
        calls := [Call.DMA_GetRemainingBytes Chan.rx h.rxHandle] } := by
  simp [SPI_MasterTransferGetCountDMA, hb]

/-- The complement of a 32-bit word has none of its bits. -/
theorem and_not32_and (f F : Nat) (hF : F < 2 ^ 32) : (f &&& not32 F) &&& F = 0 := by
  apply Nat.eq_of_testBit_eq
  intro i
  have h : not32 F = 2 ^ 32 - (F + 1) := by
    unfold not32
    rw [Nat.mod_eq_of_lt hF]
    omega
  rw [h]
  simp only [Nat.testBit_land, Nat.testBit_two_pow_sub_succ hF, Nat.zero_testBit]
  cases Nat.testBit F i <;> simp

theorem lor_and_self (f F : Nat) : (f ||| F) &&& F = F := by
  apply Nat.eq_of_testBit_eq
  intro i
  simp only [Nat.testBit_land, Nat.testBit_lor]
  cases Nat.testBit F i <;> simp

/-- The status that `DMA_SubmitTransfer` returns for the receive channel has no
influence on what `SPI_MasterTransferDMA` does. -/
theorem rx_submit_status_discarded (K : Headers) (env : Env) (s : Scratch) (base : Nat)
    (handle : Option spi_dma_handle_t) (xfer : Option spi_transfer_t) (e : Int) :
    SPI_MasterTransferDMA K { env with submitRx := e } s base handle xfer =
      SPI_MasterTransferDMA K env s base handle xfer :=
  rfl

/-- The transmit programming of lines 296-468 contains no submission, no start and no
write of the control word. -/
theorem txProgram_calls_unsequenced (K : Headers) (env : Env) (s : Scratch) (base i : Nat)
    (cfg : spi_config_t) (x : spi_transfer_t) :
    (txProgram K env s base i cfg x).calls.filter Call.isSubmitStartOrControl = [] := by
  unfold txProgram
  by_cases htx : x.txData = 0 <;> by_cases hsp : lastWordSplit K cfg x = true <;>
    by_cases hf : env.txFifoEnabled = true <;>
    simp [htx, hsp, hf, Call.isSubmitStartOrControl]

/-- The actions of the transfer body, in program order, when the submission of the
transmit channel succeeds. -/
theorem transferBody_calls_of_success (K : Headers) (env : Env) (s : Scratch) (base : Nat)
    (h : spi_dma_handle_t) (x : spi_transfer_t) (hr : env.submitTx = K.kStatus_Success) :
    ∃ s1 control, control.isControlWrite = true ∧
      (transferBody K env s base h x).calls =
        [Call.DMA_PrepareTransfer (rxTransferConfig env base env.inst.toNat env.config x),
         Call.DMA_SubmitTransfer Chan.rx h.rxHandle
           (rxTransferConfig env base env.inst.toNat env.config x),
         Call.DMA_StartTransfer Chan.rx h.rxHandle] ++
        (txProgram K env s1 base env.inst.toNat env.config x).calls ++
        [Call.DMA_SubmitTransfer Chan.tx h.txHandle
           (txProgram K env s1 base env.inst.toNat env.config x).xferConfig,
         control, Call.DMA_StartTransfer Chan.tx h.txHandle] := by
  have hn : ¬ (env.submitTx ≠ K.kStatus_Success) := not_not.mpr hr
  unfold transferBody
  simp only [if_neg hn]
  refine ⟨_, _, ?_, by rw [List.append_assoc]; rfl⟩
  by_cases hf : env.txFifoEnabled = true <;> simp [hf, Call.isControlWrite]

/-- The transmit programming of lines 296-468 starts no channel. -/
theorem txProgram_calls_noStart (K : Headers) (env : Env) (s : Scratch) (base i : Nat)
    (cfg : spi_config_t) (x : spi_transfer_t) :
    (txProgram K env s base i cfg x).calls.filter Call.isRxStart = [] ∧
    (txProgram K env s base i cfg x).calls.filter Call.isTxStart = [] := by
  unfold txProgram
  by_cases htx : x.txData = 0 <;> by_cases hsp : lastWordSplit K cfg x = true <;>
    by_cases hf : env.txFifoEnabled = true <;>
    simp [htx, hsp, hf, Call.isRxStart, Call.isTxStart]

/-- Testing one bit and returning it is the same as masking it. -/
theorem bit_select (f a : Nat) : (if f &&& 2 ^ a ≠ 0 then 2 ^ a else 0) = f &&& 2 ^ a := by
  by_cases h : f &&& 2 ^ a = 0
  · simp [h]
  · simp only [ne_eq, h, not_false_eq_true, if_true]
    apply Nat.eq_of_testBit_eq
    intro i
    simp only [Nat.testBit_land, Nat.testBit_two_pow]
    by_cases hi : a = i
    · subst hi
      have hbit : f.testBit a = true := by
        by_contra hc
        apply h
        apply Nat.eq_of_testBit_eq
        intro j
        simp only [Nat.testBit_land, Nat.testBit_two_pow, Nat.zero_testBit]
        by_cases hj : a = j
        · subst hj
          simp [hc]
        · simp [hj]
      simp [hbit]
    · simp [hi]

theorem u32_two_pow (a : Nat) (ha : a < 32) : u32 (2 ^ a) = 2 ^ a := by
  unfold u32
  exact Nat.mod_eq_of_lt (Nat.pow_lt_pow_right (by norm_num) ha)

theorem u32_and_not32 (A B : Nat) : u32 (A &&& not32 B) = A &&& not32 B := by
  unfold u32
  apply Nat.mod_eq_of_lt
  have h1 : A &&& not32 B ≤ not32 B := Nat.and_le_right
  have h2 : not32 B < 2 ^ 32 := by
    unfold not32
    omega
  omega

/-- Building the word of lines 275-277 from a start value `w` gives `w` OR'd with the
control word built from 0. -/
theorem fifoWR_from (K : Headers) (cfg : spi_config_t) (x : spi_transfer_t) (w : Nat) :
    SpiConfigToFifoWR K cfg (XferToFifoWR K x w) = w ||| controlWord K cfg x := by
  unfold controlWord SpiConfigToFifoWR XferToFifoWR
  simp [Nat.lor_assoc]

theorem lastWordSplit_iff (K : Headers) (cfg : spi_config_t) (x : spi_transfer_t) :
    lastWordSplit K cfg x = true ↔
      (x.configFlags &&& u32 K.kSPI_FrameAssert ≠ 0 ∧
        (if cfg.dataWidth > 7 then x.dataSize > 2 else x.dataSize > 1)) := by
  unfold lastWordSplit
  by_cases hw : cfg.dataWidth > 7 <;> simp [hw]

/-- The transmit programming without a transmit buffer compared with that of the same
request with one: element width, count, chained descriptor, interrupt enables and the
destination of the created descriptor agree; the bulk destination agrees except on the
chained path with the transmit FIFO disabled, where the dummy path (line 434) programs
`base->TXDATCTL` and the paths with data (lines 363 and 369) program `base->TXDAT`. -/
theorem dummy_vs_data_programming (K : Headers) (env : Env) (s : Scratch) (base i : Nat)
    (cfg : spi_config_t) (x : spi_transfer_t) (htx : x.txData ≠ 0) :
    (txProgram K env s base i cfg { x with txData := 0 }).xferConfig.byteWidth =
      (txProgram K env s base i cfg x).xferConfig.byteWidth ∧
    (txProgram K env s base i cfg { x with txData := 0 }).xferConfig.transferBytes =
      (txProgram K env s base i cfg x).xferConfig.transferBytes ∧
    (txProgram K env s base i cfg { x with txData := 0 }).xferConfig.nextDesc =
      (txProgram K env s base i cfg x).xferConfig.nextDesc ∧
    (txProgram K env s base i cfg { x with txData := 0 }).xferConfig.intA =
      (txProgram K env s base i cfg x).xferConfig.intA ∧
    (txProgram K env s base i cfg { x with txData := 0 }).xferConfig.intB =
      (txProgram K env s base i cfg x).xferConfig.intB ∧
    (txProgram K env s base i cfg { x with txData := 0 }).calls.filterMap
        Call.descriptorDst? =
      (txProgram K env s base i cfg x).calls.filterMap Call.descriptorDst? ∧
    (¬ (lastWordSplit K cfg x = true ∧ env.txFifoEnabled = false) →
      (txProgram K env s base i cfg { x with txData := 0 }).xferConfig.dstAddr =
        (txProgram K env s base i cfg x).xferConfig.dstAddr) ∧
    (lastWordSplit K cfg x = true ∧ env.txFifoEnabled = false →
      (txProgram K env s base i cfg { x with txData := 0 }).xferConfig.dstAddr =
        Addr.TXDATCTL base ∧
      (txProgram K env s base i cfg x).xferConfig.dstAddr = Addr.TXDAT base) := by
  have hsame : lastWordSplit K cfg { x with txData := 0 } = lastWordSplit K cfg x := rfl
  unfold txProgram
  rw [hsame]
  by_cases hsp : lastWordSplit K cfg x = true <;> by_cases hf : env.txFifoEnabled = true <;>
    by_cases hw : cfg.dataWidth > 7 <;>
    simp [htx, hsp, hf, hw, DMA_PrepareTransfer, Call.descriptorDst?]

theorem testBit_low16 (x : Nat) (hx : x % 2 ^ 16 = 0) (i : Nat) (hi : i < 16) :
    x.testBit i = false := by
  have h := congrArg (fun n => Nat.testBit n i) hx
  simp only [Nat.testBit_mod_two_pow, Nat.zero_testBit] at h
  simpa [hi] using h

theorem low16_of_testBit (x : Nat) (hx : ∀ i, i < 16 → x.testBit i = false) :
    x % 2 ^ 16 = 0 := by
  apply Nat.eq_of_testBit_eq
  intro i
  simp only [Nat.testBit_mod_two_pow, Nat.zero_testBit]
  by_cases hi : i < 16
  · simp [hx i hi]
  · simp [hi]

theorem u32_testBit_low16 (x : Nat) (hx : x % 2 ^ 16 = 0) (i : Nat) (hi : i < 16) :
    (u32 x).testBit i = false := by
  unfold u32
  rw [Nat.testBit_mod_two_pow, testBit_low16 x hx i hi, Bool.and_false]

/-- A word without low bits OR'd with a 16-bit value: the value is the low half, the
word keeps the upper half, and the two do not overlap. -/
theorem lor_fields (cw d : Nat) (hcw : cw % 2 ^ 16 = 0) (hd : d < 2 ^ 16) :
    (cw ||| d) % 2 ^ 16 = d ∧ (cw ||| d) >>> 16 = cw >>> 16 ∧ cw &&& d = 0 := by
  have hdbit : ∀ i, 16 ≤ i → d.testBit i = false := by
    intro i hi
    exact Nat.testBit_lt_two_pow (lt_of_lt_of_le hd (Nat.pow_le_pow_right (by norm_num) hi))
  refine ⟨?_, ?_, ?_⟩
  · apply Nat.eq_of_testBit_eq
    intro i
    simp only [Nat.testBit_mod_two_pow, Nat.testBit_lor]
    by_cases hi : i < 16
    · simp [hi, testBit_low16 cw hcw i hi]
    · simp [hi, hdbit i (by omega)]
  · apply Nat.eq_of_testBit_eq
    intro i
    simp only [Nat.testBit_shiftRight, Nat.testBit_lor]
    simp [hdbit (16 + i) (by omega)]
  · apply Nat.eq_of_testBit_eq
    intro i
    simp only [Nat.testBit_land, Nat.zero_testBit]
    by_cases hi : i < 16
    · simp [testBit_low16 cw hcw i hi]
    · simp [hdbit i (by omega)]

/-- Clearing the bits of `F` in a 32-bit word that has them and setting them again gives
the word back. -/
theorem clear_then_set (w F : Nat) (hw : w < 2 ^ 32) (hF : F < 2 ^ 32) (h : w &&& F = F) :
    (w &&& not32 F) ||| F = w := by
  have h1 : not32 F = 2 ^ 32 - (F + 1) := by
    unfold not32
    rw [Nat.mod_eq_of_lt hF]
    omega
  rw [h1]
  apply Nat.eq_of_testBit_eq
  intro i
  have hi := congrArg (fun n => Nat.testBit n i) h
  simp only [Nat.testBit_land] at hi
  simp only [Nat.testBit_land, Nat.testBit_lor, Nat.testBit_two_pow_sub_succ hF]
  by_cases h32 : i < 32
  · cases hFi : F.testBit i with
    | false => simp [h32]
    | true =>
      rw [hFi] at hi
      have hwi : w.testBit i = true := by simpa using hi
      simp [hwi]
  · have hwi : w.testBit i = false :=
      Nat.testBit_lt_two_pow
        (lt_of_lt_of_le hw (Nat.pow_le_pow_right (by norm_num) (by omega)))
    have hFi : F.testBit i = false :=
      Nat.testBit_lt_two_pow
        (lt_of_lt_of_le hF (Nat.pow_le_pow_right (by norm_num) (by omega)))
    simp [hwi, hFi]

theorem packedLastData_lt (env : Env) (cfg : spi_config_t) (x : spi_transfer_t) :
    packedLastData env cfg x < 2 ^ 16 := by
  unfold packedLastData loadTx
  have h1 : env.mem (x.txData + (x.dataSize - 1)) % 256 < 256 := Nat.mod_lt _ (by norm_num)
  have h2 : env.mem (x.txData + (x.dataSize - 2)) % 256 < 256 := Nat.mod_lt _ (by norm_num)
  by_cases hw : cfg.dataWidth > 7
  · simp only [hw, if_true]
    apply Nat.or_lt_two_pow
    · rw [Nat.shiftLeft_eq]
      omega
    · omega
  · simp only [hw, if_false]
    omega

/-- The control word of lines 275-277 is a 32-bit word. -/
theorem controlWord_lt (K : Headers) (cfg : spi_config_t) (x : spi_transfer_t) :
    controlWord K cfg x < 2 ^ 32 := by
  have hif : ∀ (c : Prop) [Decidable c] (F : Nat), (if c then u32 F else 0) < 2 ^ 32 := by
    intro c _ F
    by_cases hc : c
    · simp only [hc, if_true]
      exact u32_lt F
    · simp only [hc, if_false]
      norm_num
  unfold controlWord SpiConfigToFifoWR XferToFifoWR
  exact Nat.or_lt_two_pow (Nat.or_lt_two_pow (Nat.or_lt_two_pow (Nat.or_lt_two_pow
    (Nat.or_lt_two_pow (by norm_num) (hif _ _)) (hif _ _)) (hif _ _)) (u32_lt _)) (u32_lt _)

/-- When the flag constants, the deassert mask and the length field of the headers lie
in the upper half-word, so does the control word. -/
theorem controlWord_low16 (K : Headers) (cfg : spi_config_t) (x : spi_transfer_t)
    (hFD : K.kSPI_FrameDelay % 2 ^ 16 = 0) (hFA : K.kSPI_FrameAssert % 2 ^ 16 = 0)
    (hRI : K.kSPI_ReceiveIgnore % 2 ^ 16 = 0) (hD : K.SPI_DEASSERT_ALL % 2 ^ 16 = 0)
    (hL : K.SPI_TXDATCTL_LEN cfg.dataWidth % 2 ^ 16 = 0) :
    controlWord K cfg x % 2 ^ 16 = 0 := by
  apply low16_of_testBit
  intro i hi
  have hif : ∀ (c : Prop) [Decidable c] (F : Nat), F % 2 ^ 16 = 0 →
      (if c then u32 F else 0).testBit i = false := by
    intro c _ F hF
    by_cases hc : c
    · simp only [hc, if_true]
      exact u32_testBit_low16 F hF i hi
    · simp only [hc, if_false, Nat.zero_testBit]
  have hmask : (u32 (K.SPI_DEASSERT_ALL &&&
      not32 (K.SPI_DEASSERT_SSELNUM cfg.sselNum))).testBit i = false := by
    rw [u32_and_not32]
    simp [Nat.testBit_land, testBit_low16 _ hD i hi]
  unfold controlWord SpiConfigToFifoWR XferToFifoWR
  simp only [Nat.testBit_lor, Nat.zero_testBit, hif _ _ hFD, hif _ _ hFA, hif _ _ hRI, hmask,
    u32_testBit_low16 _ hL i hi, Bool.or_self]

/-- The reads of `xfer->txData` (lines 285 and 289) depend on the frame-assert flag and
the byte count only, not on the presence of the transmit buffer. -/
theorem transferBody_txLoads (K : Headers) (env : Env) (s : Scratch) (base : Nat)
    (h : spi_dma_handle_t) (x : spi_transfer_t) :
    (transferBody K env s base h x).txLoads =
      (if lastWordSplit K env.config x = true then
        (if env.config.dataWidth > 7 then [x.dataSize - 1, x.dataSize - 2]
         else [x.dataSize - 1])
       else []) := by
  unfold transferBody
  by_cases hr : env.submitTx = K.kStatus_Success <;> simp [hr]

/-- The indices at which an accepted request reads `xfer->txData` are below the byte
count. -/
theorem txLoads_lt_dataSize (K : Headers) (env : Env) (s : Scratch) (base : Nat)
    (h : spi_dma_handle_t) (x : spi_transfer_t) (hacc : Accepted env h x) (i : Nat)
    (hi : i ∈ (SPI_MasterTransferDMA K env s base (some h) (some x)).txLoads) :
    i < x.dataSize := by
  rw [transfer_of_accepted K env s base h x hacc, transferBody_txLoads] at hi
  have hsz : x.dataSize ≠ 0 := hacc.1
  by_cases hsp : lastWordSplit K env.config x = true <;>
    by_cases hw : env.config.dataWidth > 7 <;>
    simp [hsp, hw] at hi <;> omega

/-- What an accepted request does when `DMA_SubmitTransfer` on the transmit channel
returns a status other than success (lines 391-395, 442-446, 462-466): the status is
returned, the transmit channel is not started, no control word is written, and line 469
is not reached, so `txInProgress` keeps the value it had on entry. -/
theorem tx_submit_error_outcome (K : Headers) (env : Env) (s : Scratch) (base : Nat)
    (h : spi_dma_handle_t) (x : spi_transfer_t) (hacc : Accepted env h x)
    (herr : env.submitTx ≠ K.kStatus_Success) :
    (SPI_MasterTransferDMA K env s base (some h) (some x)).status = env.submitTx ∧
    (SPI_MasterTransferDMA K env s base (some h) (some x)).calls.filter Call.isTxStart = [] ∧
    (SPI_MasterTransferDMA K env s base (some h) (some x)).calls.filter
      Call.isControlWrite = [] ∧
    ∃ h1, (SPI_MasterTransferDMA K env s base (some h) (some x)).handle = some h1 ∧
      h1.txInProgress = h.txInProgress ∧ (h.txInProgress = false → h1.txInProgress = false) := by
  rw [transfer_of_accepted K env s base h x hacc]
  refine ⟨?_, ?_, ?_, ?_⟩
  · simp [transferBody, herr]
  · unfold transferBody txProgram
    by_cases htx : x.txData = 0 <;> by_cases hsp : lastWordSplit K env.config x = true <;>
      by_cases hf : env.txFifoEnabled = true <;>
      simp [herr, htx, hsp, hf, Call.isTxStart]
  · unfold transferBody txProgram
    by_cases htx : x.txData = 0 <;> by_cases hsp : lastWordSplit K env.config x = true <;>
      by_cases hf : env.txFifoEnabled = true <;>
      simp [herr, htx, hsp, hf, Call.isControlWrite]
  · rw [transferBody_handle]
    exact ⟨_, rfl, by simp [herr], by intro h0; simp [herr, h0]⟩

/-! ## The claims -/

/-- C1 (defect of the driver, evaluated on the SDK header values).  The first request
`xfer8` on the idle handle `handle0` is accepted and returns success, leaving the handle
`handleInFlight`.  A second request `xfer5` on that handle, before any completion
callback or abort, is not answered with `kStatus_SPI_Busy`: when the DMA driver accepts
the submissions it returns success, changes the handle (the recorded size becomes 5) and
records eight DMA and SPI actions; when the DMA driver refuses the transmit submission
with status 5000 it returns 5000, after the same change and six actions. -/
theorem C1_second_submit_not_rejected :
    (SPI_MasterTransferDMA sdkHeaders env8 scratch0 base0 (some handle0) (some xfer8)).status
      = sdkHeaders.kStatus_Success ∧
    (SPI_MasterTransferDMA sdkHeaders env8 scratch0 base0 (some handle0) (some xfer8)).handle
      = some handleInFlight ∧
    (SPI_MasterTransferDMA sdkHeaders env8
      (SPI_MasterTransferDMA sdkHeaders env8 scratch0 base0 (some handle0)
        (some xfer8)).scratch
      base0 (some handleInFlight) (some xfer5)).status = sdkHeaders.kStatus_Success ∧
    sdkHeaders.kStatus_Success ≠ sdkHeaders.kStatus_SPI_Busy ∧
    (SPI_MasterTransferDMA sdkHeaders env8
      (SPI_MasterTransferDMA sdkHeaders env8 scratch0 base0 (some handle0)
        (some xfer8)).scratch
      base0 (some handleInFlight) (some xfer5)).handle =
        some { handleInFlight with transferSize := 5 } ∧
    (SPI_MasterTransferDMA sdkHeaders env8
      (SPI_MasterTransferDMA sdkHeaders env8 scratch0 base0 (some handle0)
        (some xfer8)).scratch
      base0 (some handleInFlight) (some xfer5)).calls.length = 8 ∧
    (SPI_MasterTransferDMA sdkHeaders envTxFail
      (SPI_MasterTransferDMA sdkHeaders env8 scratch0 base0 (some handle0)
        (some xfer8)).scratch
      base0 (some handleInFlight) (some xfer5)).status = 5000 ∧
    (SPI_MasterTransferDMA sdkHeaders envTxFail
      (SPI_MasterTransferDMA sdkHeaders env8 scratch0 base0 (some handle0)
        (some xfer8)).scratch
      base0 (some handleInFlight) (some xfer5)).handle =
        some { handleInFlight with transferSize := 5 } ∧
    (SPI_MasterTransferDMA sdkHeaders envTxFail
      (SPI_MasterTransferDMA sdkHeaders env8 scratch0 base0 (some handle0)
        (some xfer8)).scratch
      base0 (some handleInFlight) (some xfer5)).calls.length = 6 := by
  decide

/-- C2.  On a handle with a user callback whose two in-progress flags are set, the
receive completion followed by the transmit completion, and the transmit completion
followed by the receive completion, invoke the user callback exactly once, on the second
completion, with `kStatus_Success`, and leave the handle idle with both flags false. -/
theorem C2_user_callback_once (K : Headers) (base : Nat) (h : spi_dma_handle_t)
    (hcb : h.callback ≠ 0) (htx : h.txInProgress = true) (hrx : h.rxInProgress = true) :
    ((SPI_RxDMACallback K base h).2 = [] ∧
      (SPI_TxDMACallback K base (SPI_RxDMACallback K base h).1).2 =
        [Call.userCallback h.callback base K.kStatus_Success h.userData] ∧
      (SPI_TxDMACallback K base (SPI_RxDMACallback K base h).1).1 =
        { h with txInProgress := false, rxInProgress := false, state := kSPI_Idle }) ∧
    ((SPI_TxDMACallback K base h).2 = [] ∧
      (SPI_RxDMACallback K base (SPI_TxDMACallback K base h).1).2 =
        [Call.userCallback h.callback base K.kStatus_Success h.userData] ∧
      (SPI_RxDMACallback K base (SPI_TxDMACallback K base h).1).1 =
        { h with txInProgress := false, rxInProgress := false, state := kSPI_Idle }) := by
  simp [SPI_RxDMACallback, SPI_TxDMACallback, htx, hrx, hcb]

/-- Witness of C2 on the handle left by a successful submission. -/
theorem C2_user_callback_once_witness :
    (SPI_TxDMACallback sdkHeaders base0 (SPI_RxDMACallback sdkHeaders base0 handleInFlight).1).2
      = [Call.userCallback 0x8001 base0 0 0x3000] ∧
    (SPI_RxDMACallback sdkHeaders base0 (SPI_TxDMACallback sdkHeaders base0 handleInFlight).1).1
      = { handleInFlight with txInProgress := false, rxInProgress := false, state := 0 } :=
  ⟨(C2_user_callback_once sdkHeaders base0 handleInFlight (by decide) (by decide)
      (by decide)).1.2.1,
   (C2_user_callback_once sdkHeaders base0 handleInFlight (by decide) (by decide)
      (by decide)).2.2.2⟩


/-- C3.  For an accepted request with a transmit buffer, the frame-assert flag and a
byte count above the threshold of the data width (2 when `dataWidth > 7`, 1 otherwise),
with the transmit FIFO enabled or not: exactly one configuration is submitted to the
transmit channel, read from the caller's buffer, with count `dataSize - 2` (wide) or
`dataSize - 1` (narrow) and linked to the descriptor of the instance; exactly one
descriptor is created, whose source is `s_txLastData[instance]`; and that word is the
control word OR'd with the excluded final data. -/
theorem C3_last_word_split (K : Headers) (env : Env) (s : Scratch) (base : Nat)
    (h : spi_dma_handle_t) (x : spi_transfer_t) (hacc : Accepted env h x)
    (htx : x.txData ≠ 0) (hfa : x.configFlags &&& u32 K.kSPI_FrameAssert ≠ 0)
    (hsz : if env.config.dataWidth > 7 then x.dataSize > 2 else x.dataSize > 1) :
    (∃ cfg, txSubmits (SPI_MasterTransferDMA K env s base (some h) (some x)).calls = [cfg] ∧
      cfg.srcAddr = Addr.mem x.txData ∧
      cfg.transferBytes =
        (if env.config.dataWidth > 7 then x.dataSize - 2 else x.dataSize - 1) ∧
      cfg.nextDesc = some env.inst.toNat) ∧
    (SPI_MasterTransferDMA K env s base (some h) (some x)).calls.filter
        Call.isCreateDescriptor =
      [Call.DMA_CreateDescriptor env.inst.toNat lastWordXfercfg
        (Addr.s_txLastData env.inst.toNat)
        (if env.txFifoEnabled then Addr.VFIFO_TXDATSPI env.inst.toNat
         else Addr.TXDATCTL base) none] ∧
    (SPI_MasterTransferDMA K env s base (some h) (some x)).scratch.s_txLastData
        env.inst.toNat =
      controlWord K env.config x |||
        (if env.config.dataWidth > 7 then
          (loadTx env x (x.dataSize - 1) <<< 8) ||| loadTx env x (x.dataSize - 2)
         else loadTx env x (x.dataSize - 1)) := by
  have hsplit := lastWordSplit_of K env.config x hfa hsz
  rw [transfer_of_accepted K env s base h x hacc]
  unfold transferBody txProgram
  by_cases hw : env.config.dataWidth > 7 <;> by_cases hf : env.txFifoEnabled = true <;>
    by_cases hr : env.submitTx = K.kStatus_Success <;>
    simp [hsplit, htx, hw, hf, hr, txSubmits, Call.txSubmit?, Call.isCreateDescriptor,
      DMA_PrepareTransfer, rxTransferConfig, setAt, Nat.lor_assoc]

/-- Witness of C3: a 16-bit transfer of 5 bytes with frame-assert, FIFO disabled, has
bulk count 3 linked to descriptor 0, and its last word packs the bytes at indices 4 and
3 under the control word. -/
theorem C3_last_word_split_witness :
    (txSubmits (SPI_MasterTransferDMA sdkHeaders env16 scratch0 base0 (some handle0)
        (some xfer5)).calls).map dma_transfer_config_t.transferBytes = [3] ∧
    (txSubmits (SPI_MasterTransferDMA sdkHeaders env16 scratch0 base0 (some handle0)
        (some xfer5)).calls).map dma_transfer_config_t.nextDesc = [some 0] ∧
    (SPI_MasterTransferDMA sdkHeaders env16 scratch0 base0 (some handle0)
        (some xfer5)).calls.filter Call.isCreateDescriptor =
      [Call.DMA_CreateDescriptor 0 lastWordXfercfg (Addr.s_txLastData 0)
        (Addr.TXDATCTL base0) none] ∧
    (SPI_MasterTransferDMA sdkHeaders env16 scratch0 base0 (some handle0)
        (some xfer5)).scratch.s_txLastData 0 =
      controlWord sdkHeaders env16.config xfer5 |||
        ((loadTx env16 xfer5 4 <<< 8) ||| loadTx env16 xfer5 3) := by
  have hw := C3_last_word_split sdkHeaders env16 scratch0 base0 handle0 xfer5
    ⟨by decide, by decide, by decide⟩ (by decide) (by decide) (by decide)
  obtain ⟨⟨cfg, h1, _, h3, h4⟩, h5, h6⟩ := hw
  refine ⟨?_, ?_, h5, h6⟩
  · rw [h1]
    simpa using h3
  · rw [h1]
    simpa using h4

/-- C4.  For an accepted request with the frame-assert flag and a byte count at or below
the threshold of the data width (`dataSize <= 2` when `dataWidth > 7`, `dataSize <= 1`
otherwise), with or without a transmit buffer: no descriptor is created; exactly one
configuration is submitted to the transmit channel, with count `dataSize` and no next
descriptor; the only control write, made when the submission succeeds, carries the
control word of lines 275-277 unchanged (its upper half-word with the FIFO enabled), and
that word has the frame-assert bit set. -/
theorem C4_no_split_at_threshold (K : Headers) (env : Env) (s : Scratch) (base : Nat)
    (h : spi_dma_handle_t) (x : spi_transfer_t) (hacc : Accepted env h x)
    (hfa : x.configFlags &&& u32 K.kSPI_FrameAssert ≠ 0)
    (hsz : if env.config.dataWidth > 7 then x.dataSize ≤ 2 else x.dataSize ≤ 1) :
    (SPI_MasterTransferDMA K env s base (some h) (some x)).calls.filter
        Call.isCreateDescriptor = [] ∧
    (∃ cfg, txSubmits (SPI_MasterTransferDMA K env s base (some h) (some x)).calls = [cfg] ∧
      cfg.transferBytes = x.dataSize ∧ cfg.nextDesc = none) ∧
    (SPI_MasterTransferDMA K env s base (some h) (some x)).calls.filter
        Call.isControlWrite =
      (if env.submitTx = K.kStatus_Success then
        [if env.txFifoEnabled then
           Call.write_FIFO_TXCTL env.inst.toNat ((controlWord K env.config x >>> 16) % 2 ^ 16)
         else Call.write_TXCTL base (controlWord K env.config x)]
       else []) ∧
    controlWord K env.config x &&& u32 K.kSPI_FrameAssert = u32 K.kSPI_FrameAssert ∧
    ((controlWord K env.config x >>> 16) % 2 ^ 16) &&& (u32 K.kSPI_FrameAssert >>> 16) =
      u32 K.kSPI_FrameAssert >>> 16 := by
  have hsplit := lastWordSplit_of_le K env.config x hsz
  have hbit := controlWord_frameAssert K env.config x hfa
  refine ⟨?_, ?_, ?_, hbit, upper_half_and _ _ (u32_lt _) hbit⟩
  all_goals
    rw [transfer_of_accepted K env s base h x hacc]
    unfold transferBody txProgram
    by_cases htx : x.txData = 0 <;> by_cases hw : env.config.dataWidth > 7 <;>
      by_cases hf : env.txFifoEnabled = true <;>
      by_cases hr : env.submitTx = K.kStatus_Success <;>
      simp [hsplit, htx, hw, hf, hr, txSubmits, Call.txSubmit?, Call.isCreateDescriptor,
        Call.isControlWrite, DMA_PrepareTransfer, rxTransferConfig]

/-- Witness of C4: a single byte with frame-assert on 8-bit frames, FIFO disabled: the
control register receives a word with bit 20 set. -/
theorem C4_no_split_at_threshold_witness :
    (SPI_MasterTransferDMA sdkHeaders env8 scratch0 base0 (some handle0)
        (some xfer1)).calls.filter Call.isCreateDescriptor = [] ∧
    (SPI_MasterTransferDMA sdkHeaders env8 scratch0 base0 (some handle0)
        (some xfer1)).calls.filter Call.isControlWrite =
      [Call.write_TXCTL base0 (controlWord sdkHeaders env8.config xfer1)] ∧
    controlWord sdkHeaders env8.config xfer1 &&& 0x100000 = 0x100000 := by
  have hw := C4_no_split_at_threshold sdkHeaders env8 scratch0 base0 handle0 xfer1
    ⟨by decide, by decide, by decide⟩ (by decide) (by decide)
  obtain ⟨h1, _, h3, h4, _⟩ := hw
  exact ⟨h1, h3, h4⟩


/-- C5.  On every handle, `SPI_MasterTransferAbortDMA` aborts the transmit and then the
receive DMA channel, does nothing else (in particular it does not invoke the user
callback), leaves the handle idle with both in-progress flags false and every other
field as it was; a second abort leaves the handle as the first one did. -/
theorem C5_abort (h : spi_dma_handle_t) :
    (SPI_MasterTransferAbortDMA h).2 =
      [Call.DMA_AbortTransfer Chan.tx h.txHandle, Call.DMA_AbortTransfer Chan.rx h.rxHandle] ∧
    (SPI_MasterTransferAbortDMA h).2.filter Call.isUserCallback = [] ∧
    (SPI_MasterTransferAbortDMA h).1 =
      { h with state := kSPI_Idle, txInProgress := false, rxInProgress := false } ∧
    (SPI_MasterTransferAbortDMA (SPI_MasterTransferAbortDMA h).1).1 =
      (SPI_MasterTransferAbortDMA h).1 := by
  simp [SPI_MasterTransferAbortDMA, Call.isUserCallback]

/-- C6 (defect of the driver, evaluated on the SDK header values).  After the request
`xfer8` (8 bytes) has been accepted with success on `handle0`, and with 3 bytes remaining
on the receive channel, the progress query does not return success with count 5: it
returns `kStatus_NoTransferInProgress`, writes 0 and does not query the DMA channel. -/
theorem C6_progress_query_in_flight :
    (SPI_MasterTransferDMA sdkHeaders env8 scratch0 base0 (some handle0) (some xfer8)).status
      = sdkHeaders.kStatus_Success ∧
    (SPI_MasterTransferDMA sdkHeaders env8 scratch0 base0 (some handle0) (some xfer8)).handle
      = some handleInFlight ∧
    handleInFlight.transferSize = 8 ∧ env8.remainingBytes = 3 ∧
    SPI_MasterTransferGetCountDMA sdkHeaders env8 handleInFlight (some 77) =
      { status := sdkHeaders.kStatus_NoTransferInProgress, count := some 0, calls := [] } := by
  decide

/-- C7.  On an idle handle and with a non-null count pointer, the progress query returns
`kStatus_NoTransferInProgress`, writes 0 to the count and makes no call to the DMA
driver; with a null count pointer it returns `kStatus_InvalidArgument`.  The handle is
idle when `SPI_MasterTransferCreateHandleDMA` has just created it, after
`SPI_MasterTransferAbortDMA`, and after the two completion callbacks in either order. -/
theorem C7_progress_query_idle (K : Headers) (env : Env) (c : Nat) :
    (∀ h : spi_dma_handle_t, h.state = kSPI_Idle →
      SPI_MasterTransferGetCountDMA K env h (some c) =
        { status := K.kStatus_NoTransferInProgress, count := some 0, calls := [] } ∧
      SPI_MasterTransferGetCountDMA K env h none =
        { status := K.kStatus_InvalidArgument, count := none, calls := [] }) ∧
    (∀ (env1 : Env) (s : Scratch) (base : Nat) (h0 h : spi_dma_handle_t)
        (callback userData txHandle rxHandle : Nat), base ≠ 0 →
      (SPI_MasterTransferCreateHandleDMA K env1 s base (some h0) callback userData txHandle
        rxHandle).handle = some h → h.state = kSPI_Idle) ∧
    (∀ h : spi_dma_handle_t, (SPI_MasterTransferAbortDMA h).1.state = kSPI_Idle) ∧
    (∀ (base : Nat) (h : spi_dma_handle_t),
      (SPI_TxDMACallback K base (SPI_RxDMACallback K base h).1).1.state = kSPI_Idle ∧
      (SPI_RxDMACallback K base (SPI_TxDMACallback K base h).1).1.state = kSPI_Idle) := by
  refine ⟨?_, ?_, ?_, ?_⟩
  · intro h hidle
    simp [SPI_MasterTransferGetCountDMA, hidle, kSPI_Idle, kSPI_Busy]
  · intro env1 s base h0 h callback userData txHandle rxHandle hb hh
    simp only [SPI_MasterTransferCreateHandleDMA, if_neg hb] at hh
    have hh2 := Option.some.inj hh
    subst hh2
    rfl
  · intro h
    rfl
  · intro base h
    unfold SPI_RxDMACallback SPI_TxDMACallback
    cases htx : h.txInProgress <;> cases hrx : h.rxInProgress <;>
      cases hcb : decide (h.callback = 0) <;> simp_all

/-- Witness of C7 on a freshly created handle. -/
theorem C7_progress_query_idle_witness :
    (SPI_MasterTransferCreateHandleDMA sdkHeaders env8 scratch0 base0 (some zeroHandle)
      0x8001 0x3000 0x2000 0x2010).handle = some handle0 ∧
    SPI_MasterTransferGetCountDMA sdkHeaders env8 handle0 (some 77) =
      { status := 6, count := some 0, calls := [] } ∧
    SPI_MasterTransferGetCountDMA sdkHeaders env8 handle0 none =
      { status := 4, count := none, calls := [] } :=
  ⟨by decide, (C7_progress_query_idle sdkHeaders env8 77).1 handle0 (by decide)⟩

/-- C8 (defect of the driver, evaluated on the SDK header values).  The handle
`handleInFlight`, reached from `SPI_MasterTransferCreateHandleDMA` by one successful
`SPI_MasterTransferDMA`, has both in-progress flags set while its state is not
`kSPI_Busy`: the equivalence between the busy state and the in-progress flags fails. -/
theorem C8_busy_state_invariant_broken :
    Reachable sdkHeaders handleInFlight ∧
    handleInFlight.txInProgress = true ∧ handleInFlight.rxInProgress = true ∧
    handleInFlight.state ≠ kSPI_Busy ∧
    ¬ (handleInFlight.state = kSPI_Busy ↔
        (handleInFlight.txInProgress = true ∨ handleInFlight.rxInProgress = true)) := by
  refine ⟨?_, by decide, by decide, by decide, by decide⟩
  exact Reachable.transfer env8 scratch0 base0 handle0 (some xfer8) handleInFlight
    (Reachable.create env8 scratch0 base0 zeroHandle 0x8001 0x3000 0x2000 0x2010 handle0
      (by decide) (by decide))
    (by decide)

/-- C9.  For a non-null handle and a request whose byte count is 0, or when
`SPI_GetInstance` yields a negative instance, `SPI_MasterTransferDMA` returns
`kStatus_InvalidArgument`, returns the handle and the static arrays as they were, records
no action and reads no transmit byte. -/
theorem C9_invalid_argument (K : Headers) (env : Env) (s : Scratch) (base : Nat)
    (h : spi_dma_handle_t) (x : spi_transfer_t) (hbad : x.dataSize = 0 ∨ env.inst < 0) :
    (SPI_MasterTransferDMA K env s base (some h) (some x)).status =
      K.kStatus_InvalidArgument ∧
    (SPI_MasterTransferDMA K env s base (some h) (some x)).handle = some h ∧
    (SPI_MasterTransferDMA K env s base (some h) (some x)).scratch = s ∧
    (SPI_MasterTransferDMA K env s base (some h) (some x)).calls = [] ∧
    (SPI_MasterTransferDMA K env s base (some h) (some x)).txLoads = [] := by
  unfold SPI_MasterTransferDMA
  by_cases h1 : x.dataSize = 0
  · simp [h1]
  · have h2 : env.inst < 0 := hbad.resolve_left h1
    simp [h1, h2]

/-- Witness of C9: a zero-length request, and a request on an unresolved instance. -/
theorem C9_invalid_argument_witness :
    (SPI_MasterTransferDMA sdkHeaders env8 scratch0 base0 (some handle0)
      (some { xfer8 with dataSize := 0 })).status = 4 ∧
    (SPI_MasterTransferDMA sdkHeaders { env8 with inst := -1 } scratch0 base0 (some handle0)
      (some xfer8)).calls = [] :=
  ⟨(C9_invalid_argument sdkHeaders env8 scratch0 base0 handle0 { xfer8 with dataSize := 0 }
      (Or.inl rfl)).1,
   (C9_invalid_argument sdkHeaders { env8 with inst := -1 } scratch0 base0 handle0 xfer8
      (Or.inr (by decide))).2.2.2.1⟩

/-- C10 (defect of the driver, evaluated on the SDK header values).  The handle
`handleInFlight` is the one a successful `SPI_MasterTransferDMA` of `xfer8` leaves, with
transmit-in-progress set.  Line 236 stored `kStatus_SPI_Busy` in its state, so the next
request `xfer5` is accepted; its transmit submission is refused with status 5000.  The
call returns 5000, does not start the transmit channel and writes no control word, but
it does not leave transmit-in-progress false: the flag is still true. -/
theorem C10_tx_submit_error_in_flight :
    (SPI_MasterTransferDMA sdkHeaders env8 scratch0 base0 (some handle0) (some xfer8)).status
      = sdkHeaders.kStatus_Success ∧
    (SPI_MasterTransferDMA sdkHeaders env8 scratch0 base0 (some handle0) (some xfer8)).handle
      = some handleInFlight ∧
    Accepted envTxFail handleInFlight xfer5 ∧
    envTxFail.submitTx = 5000 ∧ envTxFail.submitTx ≠ sdkHeaders.kStatus_Success ∧
    (SPI_MasterTransferDMA sdkHeaders envTxFail
      (SPI_MasterTransferDMA sdkHeaders env8 scratch0 base0 (some handle0)
        (some xfer8)).scratch
      base0 (some handleInFlight) (some xfer5)).status = 5000 ∧
    (SPI_MasterTransferDMA sdkHeaders envTxFail
      (SPI_MasterTransferDMA sdkHeaders env8 scratch0 base0 (some handle0)
        (some xfer8)).scratch
      base0 (some handleInFlight) (some xfer5)).calls.filter Call.isTxStart = [] ∧
    (SPI_MasterTransferDMA sdkHeaders envTxFail
      (SPI_MasterTransferDMA sdkHeaders env8 scratch0 base0 (some handle0)
        (some xfer8)).scratch
      base0 (some handleInFlight) (some xfer5)).calls.filter Call.isControlWrite = [] ∧
    (SPI_MasterTransferDMA sdkHeaders envTxFail
      (SPI_MasterTransferDMA sdkHeaders env8 scratch0 base0 (some handle0)
        (some xfer8)).scratch
      base0 (some handleInFlight) (some xfer5)).handle =
        some { handleInFlight with transferSize := 5 } ∧
    ({ handleInFlight with transferSize := 5 } : spi_dma_handle_t).txInProgress = true := by
  refine ⟨by decide, by decide, ⟨by decide, by decide, by decide⟩, by decide, by decide,
    by decide, by decide, by decide, by decide, by decide⟩

/-- C11 (defect of the driver, evaluated on the SDK header values).  The DMA submission
of the receive channel fails with status 5000 while that of the transmit channel
succeeds: `SPI_MasterTransferDMA` does not return 5000 but success, starts the receive
channel and marks the receive as in progress. -/
theorem C11_rx_submit_error_ignored :
    envRxFail.submitRx = 5000 ∧ envRxFail.submitRx ≠ sdkHeaders.kStatus_Success ∧
    (SPI_MasterTransferDMA sdkHeaders envRxFail scratch0 base0 (some handle0)
      (some xfer8)).status = sdkHeaders.kStatus_Success ∧
    (SPI_MasterTransferDMA sdkHeaders envRxFail scratch0 base0 (some handle0)
      (some xfer8)).calls.filter Call.isRxStart = [Call.DMA_StartTransfer Chan.rx 0x2010] ∧
    (SPI_MasterTransferDMA sdkHeaders envRxFail scratch0 base0 (some handle0)
      (some xfer8)).handle = some handleInFlight := by
  decide

/-- C12.  `SPI_MasterHalfDuplexTransferDMA` first calls the blocking primitive with the
transmit buffer and `txDataSize` and no receive buffer when `isTransmitFirst`, with the
receive buffer and `rxDataSize` and no transmit buffer otherwise; the flags of that leg
are the caller's flags with frame-assert cleared when `isPcsAssertInTransfer`, and with
frame-assert set otherwise.  When the blocking leg returns success, the rest of the call
is `SPI_MasterTransferDMA` on the opposite direction with the caller's flags, and its
status is returned. -/
theorem C12_half_duplex_legs (K : Headers) (env : Env) (s : Scratch) (base : Nat)
    (handle : Option spi_dma_handle_t) (xfer : spi_half_duplex_transfer_t) :
    (SPI_MasterHalfDuplexTransferDMA K env s base handle xfer).calls.head? =
      some (Call.SPI_MasterTransferBlocking base
        { txData := if xfer.isTransmitFirst then xfer.txData else 0,
          rxData := if xfer.isTransmitFirst then 0 else xfer.rxData,
          dataSize := if xfer.isTransmitFirst then xfer.txDataSize else xfer.rxDataSize,
          configFlags :=
            if xfer.isPcsAssertInTransfer then
              xfer.configFlags &&& not32 (u32 K.kSPI_FrameAssert)
            else xfer.configFlags ||| u32 K.kSPI_FrameAssert }) ∧
    (xfer.configFlags &&& not32 (u32 K.kSPI_FrameAssert)) &&& u32 K.kSPI_FrameAssert = 0 ∧
    (xfer.configFlags ||| u32 K.kSPI_FrameAssert) &&& u32 K.kSPI_FrameAssert =
      u32 K.kSPI_FrameAssert ∧
    (env.blocking = K.kStatus_Success →
      (SPI_MasterHalfDuplexTransferDMA K env s base handle xfer).status =
        (SPI_MasterTransferDMA K env s base handle (some
          { txData := if xfer.isTransmitFirst then 0 else xfer.txData,
            rxData := if xfer.isTransmitFirst then xfer.rxData else 0,
            dataSize := if xfer.isTransmitFirst then xfer.rxDataSize else xfer.txDataSize,
            configFlags := xfer.configFlags })).status ∧
      (SPI_MasterHalfDuplexTransferDMA K env s base handle xfer).handle =
        (SPI_MasterTransferDMA K env s base handle (some
          { txData := if xfer.isTransmitFirst then 0 else xfer.txData,
            rxData := if xfer.isTransmitFirst then xfer.rxData else 0,
            dataSize := if xfer.isTransmitFirst then xfer.rxDataSize else xfer.txDataSize,
            configFlags := xfer.configFlags })).handle ∧
      (SPI_MasterHalfDuplexTransferDMA K env s base handle xfer).calls.tail =
        (SPI_MasterTransferDMA K env s base handle (some
          { txData := if xfer.isTransmitFirst then 0 else xfer.txData,
            rxData := if xfer.isTransmitFirst then xfer.rxData else 0,
            dataSize := if xfer.isTransmitFirst then xfer.rxDataSize else xfer.txDataSize,
            configFlags := xfer.configFlags })).calls) := by
  refine ⟨?_, and_not32_and _ _ (u32_lt _), lor_and_self _ _, ?_⟩
  · unfold SPI_MasterHalfDuplexTransferDMA
    cases htf : xfer.isTransmitFirst <;> cases hp : xfer.isPcsAssertInTransfer <;>
      by_cases hb : env.blocking = K.kStatus_Success <;> simp [hb]
  · intro hb
    unfold SPI_MasterHalfDuplexTransferDMA
    cases htf : xfer.isTransmitFirst <;> cases hp : xfer.isPcsAssertInTransfer <;>
      simp [hb]

/-- Witness of C12: transmit first with the chip select held: the blocking leg carries
no frame-assert, and the DMA leg is the receive of 4 bytes with the caller's flags. -/
theorem C12_half_duplex_legs_witness :
    (SPI_MasterHalfDuplexTransferDMA sdkHeaders env8 scratch0 base0 (some handle0)
        halfDuplex0).calls.head? =
      some (Call.SPI_MasterTransferBlocking base0
        { txData := 0x1000, rxData := 0, dataSize := 2, configFlags := 0 }) ∧
    (SPI_MasterHalfDuplexTransferDMA sdkHeaders env8 scratch0 base0 (some handle0)
        halfDuplex0).status =
      (SPI_MasterTransferDMA sdkHeaders env8 scratch0 base0 (some handle0) (some
        { txData := 0, rxData := 0x1100, dataSize := 4, configFlags := 0x100000 })).status :=
  ⟨(C12_half_duplex_legs sdkHeaders env8 scratch0 base0 (some handle0) halfDuplex0).1,
   ((C12_half_duplex_legs sdkHeaders env8 scratch0 base0 (some handle0) halfDuplex0).2.2.2
      (by decide)).1⟩

/-- C13.  When the blocking leg of `SPI_MasterHalfDuplexTransferDMA` returns a status
`s` other than success, the call returns `s`; the blocking call is its only action, so
`SPI_MasterTransferDMA` is not run, and the handle and the static arrays are as they
were. -/
theorem C13_half_duplex_leg1_error (K : Headers) (env : Env) (s : Scratch) (base : Nat)
    (handle : Option spi_dma_handle_t) (xfer : spi_half_duplex_transfer_t)
    (hfail : env.blocking ≠ K.kStatus_Success) :
    (SPI_MasterHalfDuplexTransferDMA K env s base handle xfer).status = env.blocking ∧
    (SPI_MasterHalfDuplexTransferDMA K env s base handle xfer).handle = handle ∧
    (SPI_MasterHalfDuplexTransferDMA K env s base handle xfer).scratch = s ∧
    (SPI_MasterHalfDuplexTransferDMA K env s base handle xfer).calls =
      [Call.SPI_MasterTransferBlocking base
        { txData := if xfer.isTransmitFirst then xfer.txData else 0,
          rxData := if xfer.isTransmitFirst then 0 else xfer.rxData,
          dataSize := if xfer.isTransmitFirst then xfer.txDataSize else xfer.rxDataSize,
          configFlags :=
            if xfer.isPcsAssertInTransfer then
              xfer.configFlags &&& not32 (u32 K.kSPI_FrameAssert)
            else xfer.configFlags ||| u32 K.kSPI_FrameAssert }] ∧
    (SPI_MasterHalfDuplexTransferDMA K env s base handle xfer).calls.filter
      Call.isSubmitStartOrControl = [] ∧
    (SPI_MasterHalfDuplexTransferDMA K env s base handle xfer).txLoads = [] := by
  unfold SPI_MasterHalfDuplexTransferDMA
  cases htf : xfer.isTransmitFirst <;> cases hp : xfer.isPcsAssertInTransfer <;>
    simp [hfail, Call.isSubmitStartOrControl]

/-- Witness of C13: the blocking leg fails with status 5000. -/
theorem C13_half_duplex_leg1_error_witness :
    (SPI_MasterHalfDuplexTransferDMA sdkHeaders envBlockingFail scratch0 base0
      (some handle0) halfDuplex0).status = 5000 ∧
    (SPI_MasterHalfDuplexTransferDMA sdkHeaders envBlockingFail scratch0 base0
      (some handle0) halfDuplex0).handle = some handle0 :=
  ⟨(C13_half_duplex_leg1_error sdkHeaders envBlockingFail scratch0 base0 (some handle0)
      halfDuplex0 (by decide)).1,
   (C13_half_duplex_leg1_error sdkHeaders envBlockingFail scratch0 base0 (some handle0)
      halfDuplex0 (by decide)).2.1⟩


/-- C14 (counterexample).  On the handle `handleInFlight`, which has a user callback,
a receive completion that fires after `SPI_MasterTransferAbortDMA` invokes the user
callback, and so does a transmit completion. -/
theorem C14_late_completion_counterexample :
    (SPI_RxDMACallback sdkHeaders base0 (SPI_MasterTransferAbortDMA handleInFlight).1).2 =
      [Call.userCallback 0x8001 base0 0 0x3000] ∧
    (SPI_TxDMACallback sdkHeaders base0 (SPI_MasterTransferAbortDMA handleInFlight).1).2 =
      [Call.userCallback 0x8001 base0 0 0x3000] := by
  decide

/-- C14 (amended).  A transmit or receive completion callback that fires after
`SPI_MasterTransferAbortDMA` leaves the handle as the abort left it, idle with both
in-progress flags false; it invokes the user callback, with success, exactly when the
handle has a user callback, and does nothing when it has none. -/
theorem C14_late_completion (K : Headers) (base : Nat) (h : spi_dma_handle_t) :
    (SPI_MasterTransferAbortDMA h).1.state = kSPI_Idle ∧
    (SPI_MasterTransferAbortDMA h).1.txInProgress = false ∧
    (SPI_MasterTransferAbortDMA h).1.rxInProgress = false ∧
    (SPI_RxDMACallback K base (SPI_MasterTransferAbortDMA h).1).1 =
      (SPI_MasterTransferAbortDMA h).1 ∧
    (SPI_TxDMACallback K base (SPI_MasterTransferAbortDMA h).1).1 =
      (SPI_MasterTransferAbortDMA h).1 ∧
    (SPI_RxDMACallback K base (SPI_MasterTransferAbortDMA h).1).2 =
      (if h.callback ≠ 0 then
        [Call.userCallback h.callback base K.kStatus_Success h.userData] else []) ∧
    (SPI_TxDMACallback K base (SPI_MasterTransferAbortDMA h).1).2 =
      (if h.callback ≠ 0 then
        [Call.userCallback h.callback base K.kStatus_Success h.userData] else []) := by
  unfold SPI_RxDMACallback SPI_TxDMACallback SPI_MasterTransferAbortDMA
  by_cases hcb : h.callback = 0 <;> simp [hcb]

/-- C15.  For a request that `SPI_MasterTransferDMA` accepts and for which it returns
success, the recorded actions are, in this order: the preparation, the submission and
the start of the receive channel; the preparation of the transmit transfer, which
contains no submission, no start and no control write; the submission of the transmit
channel; one write of the control word; the start of the transmit channel.  So each
channel is started exactly once and the start of the transmit channel is the last
action. -/
theorem C15_call_order (K : Headers) (env : Env) (s : Scratch) (base : Nat)
    (h : spi_dma_handle_t) (x : spi_transfer_t) (hacc : Accepted env h x)
    (hok : (SPI_MasterTransferDMA K env s base (some h) (some x)).status =
      K.kStatus_Success) :
    (∃ rxConfig pre txConfig control,
      (SPI_MasterTransferDMA K env s base (some h) (some x)).calls =
        [Call.DMA_PrepareTransfer rxConfig,
         Call.DMA_SubmitTransfer Chan.rx h.rxHandle rxConfig,
         Call.DMA_StartTransfer Chan.rx h.rxHandle] ++ pre ++
        [Call.DMA_SubmitTransfer Chan.tx h.txHandle txConfig, control,
         Call.DMA_StartTransfer Chan.tx h.txHandle] ∧
      pre.filter Call.isSubmitStartOrControl = [] ∧
      control.isControlWrite = true) ∧
    (SPI_MasterTransferDMA K env s base (some h) (some x)).calls.filter Call.isRxStart =
      [Call.DMA_StartTransfer Chan.rx h.rxHandle] ∧
    (SPI_MasterTransferDMA K env s base (some h) (some x)).calls.filter Call.isTxStart =
      [Call.DMA_StartTransfer Chan.tx h.txHandle] ∧
    (SPI_MasterTransferDMA K env s base (some h) (some x)).calls.getLast? =
      some (Call.DMA_StartTransfer Chan.tx h.txHandle) := by
  rw [transfer_of_accepted K env s base h x hacc] at hok ⊢
  have hr : env.submitTx = K.kStatus_Success := by
    by_cases hr : env.submitTx = K.kStatus_Success
    · exact hr
    · simp only [transferBody, ne_eq, hr, not_false_eq_true, if_true] at hok
  obtain ⟨s1, control, hctl, hcalls⟩ := transferBody_calls_of_success K env s base h x hr
  refine ⟨⟨_, _, _, control, hcalls, txProgram_calls_unsequenced K env s1 base _ _ x, hctl⟩,
    ?_, ?_, ?_⟩
  · have hc : control.isRxStart = false := by
      cases control <;> simp_all [Call.isControlWrite, Call.isRxStart]
    have e1 : ∀ c, Call.isRxStart (Call.DMA_PrepareTransfer c) = false := fun _ => rfl
    have e2 : ∀ ch p c, Call.isRxStart (Call.DMA_SubmitTransfer ch p c) = false :=
      fun _ _ _ => rfl
    have e3 : ∀ p, Call.isRxStart (Call.DMA_StartTransfer Chan.rx p) = true := fun _ => rfl
    have e4 : ∀ p, Call.isRxStart (Call.DMA_StartTransfer Chan.tx p) = false := fun _ => rfl
    rw [hcalls]
    simp [List.filter_append, List.filter_cons,
      (txProgram_calls_noStart K env s1 base _ _ x).1, hc, e1, e2, e3, e4]
  · have hc : control.isTxStart = false := by
      cases control <;> simp_all [Call.isControlWrite, Call.isTxStart]
    have e1 : ∀ c, Call.isTxStart (Call.DMA_PrepareTransfer c) = false := fun _ => rfl
    have e2 : ∀ ch p c, Call.isTxStart (Call.DMA_SubmitTransfer ch p c) = false :=
      fun _ _ _ => rfl
    have e3 : ∀ p, Call.isTxStart (Call.DMA_StartTransfer Chan.rx p) = false := fun _ => rfl
    have e4 : ∀ p, Call.isTxStart (Call.DMA_StartTransfer Chan.tx p) = true := fun _ => rfl
    rw [hcalls]
    simp [List.filter_append, List.filter_cons,
      (txProgram_calls_noStart K env s1 base _ _ x).2, hc, e1, e2, e3, e4]
  · rw [hcalls]
    have e : ∀ (l : List Call) (a b c : Call), (l ++ [a, b, c]).getLast? = some c := by
      intro l a b c
      have h3 : l ++ [a, b, c] = (l ++ [a, b]) ++ [c] := by simp
      rw [h3, List.getLast?_concat]
    exact e _ _ _ _


/-- Witness of C15 on the full-duplex request `xfer8`. -/
theorem C15_call_order_witness :
    (SPI_MasterTransferDMA sdkHeaders env8 scratch0 base0 (some handle0)
      (some xfer8)).calls.filter Call.isRxStart = [Call.DMA_StartTransfer Chan.rx 0x2010] ∧
    (SPI_MasterTransferDMA sdkHeaders env8 scratch0 base0 (some handle0)
      (some xfer8)).calls.filter Call.isTxStart = [Call.DMA_StartTransfer Chan.tx 0x2000] ∧
    (SPI_MasterTransferDMA sdkHeaders env8 scratch0 base0 (some handle0)
      (some xfer8)).calls.getLast? = some (Call.DMA_StartTransfer Chan.tx 0x2000) :=
  (C15_call_order sdkHeaders env8 scratch0 base0 handle0 xfer8
    ⟨by decide, by decide, by decide⟩ (by decide)).2

/-- C16.  With a non-null base and a non-null handle, whatever the handle held,
`SPI_MasterTransferCreateHandleDMA` returns success; the handle is idle with both
in-progress flags false and transfer size 0 and holds the given channel handles, user
callback and user data; `SPI_TxDMACallback` is registered on the transmit channel and
`SPI_RxDMACallback` on the receive channel, both with the private handle of the instance
as context, and that private handle holds the base and the handle.  With a null base or
a null handle it returns `kStatus_InvalidArgument`, registers nothing and changes
nothing. -/
theorem C16_create_handle (K : Headers) (env : Env) (s : Scratch) (base : Nat)
    (handle : Option spi_dma_handle_t) (callback userData txHandle rxHandle : Nat) :
    (base ≠ 0 → handle ≠ none →
      (SPI_MasterTransferCreateHandleDMA K env s base handle callback userData txHandle
        rxHandle).status = K.kStatus_Success ∧
      (SPI_MasterTransferCreateHandleDMA K env s base handle callback userData txHandle
        rxHandle).handle =
        some { txInProgress := false, rxInProgress := false, txHandle := txHandle,
               rxHandle := rxHandle, callback := callback, userData := userData,
               state := kSPI_Idle, transferSize := 0 } ∧
      (SPI_MasterTransferCreateHandleDMA K env s base handle callback userData txHandle
        rxHandle).calls =
        [Call.DMA_SetCallback Chan.tx txHandle CallbackFn.SPI_TxDMACallback env.inst.toNat,
         Call.DMA_SetCallback Chan.rx rxHandle CallbackFn.SPI_RxDMACallback env.inst.toNat] ∧
      (SPI_MasterTransferCreateHandleDMA K env s base handle callback userData txHandle
        rxHandle).scratch.s_dmaPrivateHandle env.inst.toNat =
        { base := base, handle := true }) ∧
    (base = 0 ∨ handle = none →
      (SPI_MasterTransferCreateHandleDMA K env s base handle callback userData txHandle
        rxHandle).status = K.kStatus_InvalidArgument ∧
      (SPI_MasterTransferCreateHandleDMA K env s base handle callback userData txHandle
        rxHandle).calls = [] ∧
      (SPI_MasterTransferCreateHandleDMA K env s base handle callback userData txHandle
        rxHandle).handle = handle ∧
      (SPI_MasterTransferCreateHandleDMA K env s base handle callback userData txHandle
        rxHandle).scratch = s) := by
  constructor
  · intro hb hh
    cases handle with
    | none => exact absurd rfl hh
    | some h0 => simp [SPI_MasterTransferCreateHandleDMA, hb, zeroHandle, setAt]
  · intro hbad
    cases handle with
    | none =>
      by_cases hb : base = 0 <;> simp [SPI_MasterTransferCreateHandleDMA, hb]
    | some h0 =>
      have hb : base = 0 := by
        rcases hbad with hb | hn
        · exact hb
        · exact absurd hn (by simp)
      simp [SPI_MasterTransferCreateHandleDMA, hb]

/-- Witness of C16: creation over a handle left by a transfer, and with a null base. -/
theorem C16_create_handle_witness :
    (SPI_MasterTransferCreateHandleDMA sdkHeaders env8 scratch0 base0 (some handleInFlight)
      0x8001 0x3000 0x2000 0x2010).handle = some handle0 ∧
    (SPI_MasterTransferCreateHandleDMA sdkHeaders env8 scratch0 0 (some handleInFlight)
      0x8001 0x3000 0x2000 0x2010).status = 4 :=
  ⟨((C16_create_handle sdkHeaders env8 scratch0 base0 (some handleInFlight)
      0x8001 0x3000 0x2000 0x2010).1 (by decide) (by decide)).2.1,
   ((C16_create_handle sdkHeaders env8 scratch0 0 (some handleInFlight)
      0x8001 0x3000 0x2000 0x2010).2 (Or.inl rfl)).1⟩

/-- C18 (counterexample).  For the transmit-only request `xferTxOnly8`, which has no
receive buffer, the receive transfer is not programmed as peripheral-to-memory but as
static-to-static. -/
theorem C18_rx_programming_counterexample :
    (rxSubmits (SPI_MasterTransferDMA sdkHeaders env8 scratch0 base0 (some handle0)
      (some xferTxOnly8)).calls).map dma_transfer_config_t.transferType =
      [dma_transfer_type_t.kDMA_StaticToStatic] ∧
    dma_transfer_type_t.kDMA_StaticToStatic ≠ dma_transfer_type_t.kDMA_PeripheralToMemory := by
  decide

/-- C18 (amended).  For an accepted request exactly one configuration is submitted to
the receive channel: peripheral-to-memory into the caller's receive buffer when that
buffer is present, static-to-static into the shared dummy sink `s_rxDummy` when it is
absent; its source is the FIFO receive register when the receive FIFO is enabled and
`base->RXDAT` otherwise, its element width is 2 when `dataWidth > 7` and 1 otherwise,
its count is `dataSize`, and it has no chained descriptor. -/
theorem C18_rx_programming (K : Headers) (env : Env) (s : Scratch) (base : Nat)
    (h : spi_dma_handle_t) (x : spi_transfer_t) (hacc : Accepted env h x) :
    ∃ cfg, rxSubmits (SPI_MasterTransferDMA K env s base (some h) (some x)).calls = [cfg] ∧
      cfg.transferType =
        (if x.rxData ≠ 0 then dma_transfer_type_t.kDMA_PeripheralToMemory
         else dma_transfer_type_t.kDMA_StaticToStatic) ∧
      cfg.dstAddr = (if x.rxData ≠ 0 then Addr.mem x.rxData else Addr.s_rxDummy) ∧
      cfg.srcAddr =
        (if env.rxFifoEnabled then Addr.VFIFO_RXDATSPI env.inst.toNat else Addr.RXDAT base) ∧
      cfg.byteWidth = (if env.config.dataWidth > 7 then 2 else 1) ∧
      cfg.transferBytes = x.dataSize ∧
      cfg.nextDesc = none := by
  rw [transfer_of_accepted K env s base h x hacc]
  refine ⟨rxTransferConfig env base env.inst.toNat env.config x, ?_, ?_⟩
  · unfold transferBody txProgram
    by_cases htx : x.txData = 0 <;> by_cases hsp : lastWordSplit K env.config x = true <;>
      by_cases hf : env.txFifoEnabled = true <;>
      by_cases hr : env.submitTx = K.kStatus_Success <;>
      simp [htx, hsp, hf, hr, rxSubmits, Call.rxSubmit?]
  · unfold rxTransferConfig DMA_PrepareTransfer
    by_cases hrx : x.rxData = 0 <;> by_cases hf : env.rxFifoEnabled = true <;>
      simp [hrx, hf]

/-- Witness of C18: the receive programming of the full-duplex request `xfer8` and of the
transmit-only request `xferTxOnly8`. -/
theorem C18_rx_programming_witness :
    rxSubmits (SPI_MasterTransferDMA sdkHeaders env8 scratch0 base0 (some handle0)
      (some xfer8)).calls =
      [{ srcAddr := Addr.RXDAT base0, dstAddr := Addr.mem 0x1100, byteWidth := 1,
         transferBytes := 8, transferType := dma_transfer_type_t.kDMA_PeripheralToMemory,
         nextDesc := none, intA := true, intB := false }] ∧
    (rxSubmits (SPI_MasterTransferDMA sdkHeaders env8 scratch0 base0 (some handle0)
      (some xferTxOnly8)).calls).map dma_transfer_config_t.dstAddr = [Addr.s_rxDummy] := by
  have hw := C18_rx_programming sdkHeaders env8 scratch0 base0 handle0 xferTxOnly8
    ⟨by decide, by decide, by decide⟩
  obtain ⟨cfg, h1, _, h3, _⟩ := hw
  refine ⟨by decide, ?_⟩
  rw [h1]
  simpa using h3


/-- C17.  When the three transfer flags of the headers are single bits of a 32-bit word,
the control word built by `XferToFifoWR` followed by `SpiConfigToFifoWR` from 0 is the
deassert-all mask without the bit of the active slave select, OR'd with the data-width
field of `dataWidth`, OR'd with the request flags restricted to frame-delay,
frame-assert and receive-ignore; so two requests whose flags agree on these three bits
have the same word. -/
theorem C17_control_word (K : Headers) (cfg : spi_config_t) (x y : spi_transfer_t)
    (a b c : Nat) (ha : a < 32) (hb : b < 32) (hc : c < 32)
    (hFD : K.kSPI_FrameDelay = 2 ^ a) (hFA : K.kSPI_FrameAssert = 2 ^ b)
    (hRI : K.kSPI_ReceiveIgnore = 2 ^ c) :
    SpiConfigToFifoWR K cfg (XferToFifoWR K x 0) =
      ((K.SPI_DEASSERT_ALL &&& not32 (K.SPI_DEASSERT_SSELNUM cfg.sselNum)) |||
        u32 (K.SPI_TXDATCTL_LEN cfg.dataWidth)) |||
        (x.configFlags &&&
          ((K.kSPI_FrameDelay ||| K.kSPI_FrameAssert) ||| K.kSPI_ReceiveIgnore)) ∧
    (x.configFlags &&& ((K.kSPI_FrameDelay ||| K.kSPI_FrameAssert) ||| K.kSPI_ReceiveIgnore) =
        y.configFlags &&&
          ((K.kSPI_FrameDelay ||| K.kSPI_FrameAssert) ||| K.kSPI_ReceiveIgnore) →
      SpiConfigToFifoWR K cfg (XferToFifoWR K x 0) =
        SpiConfigToFifoWR K cfg (XferToFifoWR K y 0)) := by
  have key : ∀ z : spi_transfer_t, SpiConfigToFifoWR K cfg (XferToFifoWR K z 0) =
      ((K.SPI_DEASSERT_ALL &&& not32 (K.SPI_DEASSERT_SSELNUM cfg.sselNum)) |||
        u32 (K.SPI_TXDATCTL_LEN cfg.dataWidth)) |||
        (z.configFlags &&&
          ((K.kSPI_FrameDelay ||| K.kSPI_FrameAssert) ||| K.kSPI_ReceiveIgnore)) := by
    intro z
    unfold SpiConfigToFifoWR XferToFifoWR
    simp only [hFD, hFA, hRI, u32_two_pow a ha, u32_two_pow b hb, u32_two_pow c hc,
      bit_select, u32_and_not32]
    apply Nat.eq_of_testBit_eq
    intro i
    simp only [Nat.testBit_land, Nat.testBit_lor, Nat.zero_testBit]
    generalize Nat.testBit z.configFlags i = f
    generalize Nat.testBit (2 ^ a) i = pa
    generalize Nat.testBit (2 ^ b) i = pb
    generalize Nat.testBit (2 ^ c) i = pc
    generalize Nat.testBit (K.SPI_DEASSERT_ALL) i = d1
    generalize Nat.testBit (not32 (K.SPI_DEASSERT_SSELNUM cfg.sselNum)) i = d2
    generalize Nat.testBit (u32 (K.SPI_TXDATCTL_LEN cfg.dataWidth)) i = l
    revert f pa pb pc d1 d2 l
    decide
  refine ⟨key x, ?_⟩
  intro hxy
  rw [key x, key y, hxy]

/-- Witness of C17 on the SDK header values: bits 21, 20 and 22. -/
theorem C17_control_word_witness :
    SpiConfigToFifoWR sdkHeaders env8.config (XferToFifoWR sdkHeaders xfer5 0) =
      ((0xF0000 &&& not32 (1 <<< 16)) ||| u32 ((7 <<< 24) &&& 0xF000000)) |||
        (0x100000 &&& ((0x200000 ||| 0x100000) ||| 0x400000)) :=
  (C17_control_word sdkHeaders env8.config xfer5 xfer5 21 20 22 (by decide) (by decide)
    (by decide) (by decide) (by decide) (by decide)).1

/-- C19.  With `d` the placeholder byte `s_dummyData[instance]`: when the request has
the frame-assert flag and a byte count above the threshold of the data width (2 when
`dataWidth > 7`, 1 otherwise), `SPI_SetupDummy` sets the last word to `(d << 8 | d)`
OR'd with the control word of the request, which has frame-assert set, and the bulk
word to that same word with frame-assert cleared; otherwise it sets the bulk word to
`(d << 8 | d)` OR'd with the control word, frame-assert included when the request has
it, and leaves the last word as it was. -/
theorem C19_setup_dummy (K : Headers) (env : Env) (dummy : spi_dma_txdummy_t)
    (x : spi_transfer_t) (cfg : spi_config_t) :
    ((x.configFlags &&& u32 K.kSPI_FrameAssert ≠ 0 ∧
        (if cfg.dataWidth > 7 then x.dataSize > 2 else x.dataSize > 1)) →
      SPI_SetupDummy K env dummy x cfg =
        { lastWord :=
            (((env.s_dummyData env.inst.toNat % 256) <<< 8) |||
              env.s_dummyData env.inst.toNat % 256) ||| controlWord K cfg x,
          word :=
            ((((env.s_dummyData env.inst.toNat % 256) <<< 8) |||
              env.s_dummyData env.inst.toNat % 256) ||| controlWord K cfg x) &&&
              not32 (u32 K.kSPI_FrameAssert) } ∧
      (SPI_SetupDummy K env dummy x cfg).lastWord &&& u32 K.kSPI_FrameAssert =
        u32 K.kSPI_FrameAssert ∧
      (SPI_SetupDummy K env dummy x cfg).word &&& u32 K.kSPI_FrameAssert = 0) ∧
    (¬ (x.configFlags &&& u32 K.kSPI_FrameAssert ≠ 0 ∧
        (if cfg.dataWidth > 7 then x.dataSize > 2 else x.dataSize > 1)) →
      SPI_SetupDummy K env dummy x cfg =
        { lastWord := dummy.lastWord,
          word :=
            (((env.s_dummyData env.inst.toNat % 256) <<< 8) |||
              env.s_dummyData env.inst.toNat % 256) ||| controlWord K cfg x } ∧
      (x.configFlags &&& u32 K.kSPI_FrameAssert ≠ 0 →
        (SPI_SetupDummy K env dummy x cfg).word &&& u32 K.kSPI_FrameAssert =
          u32 K.kSPI_FrameAssert)) := by
  have hbit : ∀ w : Nat, x.configFlags &&& u32 K.kSPI_FrameAssert ≠ 0 →
      (w ||| controlWord K cfg x) &&& u32 K.kSPI_FrameAssert = u32 K.kSPI_FrameAssert := by
    intro w hfa
    have hcw := controlWord_frameAssert K cfg x hfa
    apply Nat.eq_of_testBit_eq
    intro i
    have hi := congrArg (fun n => Nat.testBit n i) hcw
    simp only [Nat.testBit_land] at hi
    simp only [Nat.testBit_land, Nat.testBit_lor]
    cases hF : Nat.testBit (u32 K.kSPI_FrameAssert) i with
    | false => simp
    | true =>
      rw [hF] at hi
      have hc : (controlWord K cfg x).testBit i = true := by simpa using hi
      simp [hc]
  constructor
  · intro hP
    have hsp : lastWordSplit K cfg x = true := (lastWordSplit_iff K cfg x).mpr hP
    have heq : SPI_SetupDummy K env dummy x cfg =
        { lastWord :=
            (((env.s_dummyData env.inst.toNat % 256) <<< 8) |||
              env.s_dummyData env.inst.toNat % 256) ||| controlWord K cfg x,
          word :=
            ((((env.s_dummyData env.inst.toNat % 256) <<< 8) |||
              env.s_dummyData env.inst.toNat % 256) ||| controlWord K cfg x) &&&
              not32 (u32 K.kSPI_FrameAssert) } := by
      unfold SPI_SetupDummy
      simp only [hsp, if_true, fifoWR_from]
    rw [heq]
    exact ⟨rfl, hbit _ hP.1, and_not32_and _ _ (u32_lt _)⟩
  · intro hP
    have hsp : lastWordSplit K cfg x = false := by
      cases hl : lastWordSplit K cfg x with
      | false => rfl
      | true => exact absurd ((lastWordSplit_iff K cfg x).mp hl) hP
    have heq : SPI_SetupDummy K env dummy x cfg =
        { lastWord := dummy.lastWord,
          word :=
            (((env.s_dummyData env.inst.toNat % 256) <<< 8) |||
              env.s_dummyData env.inst.toNat % 256) ||| controlWord K cfg x } := by
      unfold SPI_SetupDummy
      simp [hsp, fifoWR_from]
    rw [heq]
    exact ⟨rfl, fun hfa => hbit _ hfa⟩

/-- Witness of C19: 10 bytes with frame-assert on 8-bit frames and placeholder `0xFF`
build both words; a single byte leaves the last word alone. -/
theorem C19_setup_dummy_witness :
    (SPI_SetupDummy sdkHeaders env8 { lastWord := 1, word := 2 } xferRxOnly10FA
      env8.config).word &&& 0x100000 = 0 ∧
    (SPI_SetupDummy sdkHeaders env8 { lastWord := 1, word := 2 } xferRxOnly10FA
      env8.config).lastWord &&& 0x100000 = 0x100000 ∧
    (SPI_SetupDummy sdkHeaders env8 { lastWord := 1, word := 2 } xfer1
      env8.config).lastWord = 1 := by
  have h1 := (C19_setup_dummy sdkHeaders env8 { lastWord := 1, word := 2 } xferRxOnly10FA
    env8.config).1 (by decide)
  have h2 := (C19_setup_dummy sdkHeaders env8 { lastWord := 1, word := 2 } xfer1
    env8.config).2 (by decide)
  refine ⟨h1.2.2, h1.2.1, ?_⟩
  rw [h2.1]


/-- C20 (defect of the driver, evaluated on the SDK header values).  On 8-bit frames
with the transmit FIFO disabled, the 10-byte request with frame-assert takes the chained
path.  With a transmit buffer the bulk transfer goes to `base->TXDAT`; without one it
goes to `base->TXDATCTL`, so the two programmings do not have the same bulk destination;
width, count, interrupt enables, next descriptor and the destination of the chained
descriptor do agree.  The receive-only request without frame-assert sends 10 elements
from the dummy word of the instance to `base->TXDAT` with no chaining. -/
theorem C20_dummy_bulk_destination :
    txSubmits (SPI_MasterTransferDMA sdkHeaders env8 scratch0 base0 (some handle0)
      (some xferBoth10FA)).calls =
      [{ srcAddr := Addr.mem 0x1000, dstAddr := Addr.TXDAT base0, byteWidth := 1,
         transferBytes := 9, transferType := dma_transfer_type_t.kDMA_MemoryToPeripheral,
         nextDesc := some 0, intA := false, intB := false }] ∧
    txSubmits (SPI_MasterTransferDMA sdkHeaders env8 scratch0 base0 (some handle0)
      (some xferRxOnly10FA)).calls =
      [{ srcAddr := Addr.s_txDummy_word 0, dstAddr := Addr.TXDATCTL base0, byteWidth := 1,
         transferBytes := 9, transferType := dma_transfer_type_t.kDMA_StaticToStatic,
         nextDesc := some 0, intA := false, intB := false }] ∧
    Addr.TXDATCTL base0 ≠ Addr.TXDAT base0 ∧
    (SPI_MasterTransferDMA sdkHeaders env8 scratch0 base0 (some handle0)
      (some xferBoth10FA)).calls.filterMap Call.descriptorDst? = [Addr.TXDATCTL base0] ∧
    (SPI_MasterTransferDMA sdkHeaders env8 scratch0 base0 (some handle0)
      (some xferRxOnly10FA)).calls.filterMap Call.descriptorDst? = [Addr.TXDATCTL base0] ∧
    txSubmits (SPI_MasterTransferDMA sdkHeaders env8 scratch0 base0 (some handle0)
      (some xferRxOnly10)).calls =
      [{ srcAddr := Addr.s_txDummy_word 0, dstAddr := Addr.TXDAT base0, byteWidth := 1,
         transferBytes := 10, transferType := dma_transfer_type_t.kDMA_StaticToStatic,
         nextDesc := none, intA := true, intB := false }] ∧
    (SPI_MasterTransferDMA sdkHeaders env8 scratch0 base0 (some handle0)
      (some xferRxOnly10)).calls.filter Call.isCreateDescriptor = [] := by
  decide


/-- C21.  For an accepted request with the frame-assert flag and a byte count above the
threshold of the data width, with or without a transmit buffer and with the transmit
FIFO enabled or not: the one configuration submitted to the transmit channel has
`intA` and `intB` disabled and is linked to the descriptor of the instance; and exactly
one descriptor is created, valid, software-triggered, with interrupt A enabled, width 4,
no source and no destination increment, transfer count 1 and no next descriptor.  Its
source is the cached last word with a transmit buffer and the last dummy word without,
its destination the FIFO transmit register or `base->TXDATCTL`. -/
theorem C21_chained_descriptor (K : Headers) (env : Env) (s : Scratch) (base : Nat)
    (h : spi_dma_handle_t) (x : spi_transfer_t) (hacc : Accepted env h x)
    (hfa : x.configFlags &&& u32 K.kSPI_FrameAssert ≠ 0)
    (hsz : if env.config.dataWidth > 7 then x.dataSize > 2 else x.dataSize > 1) :
    (∃ cfg, txSubmits (SPI_MasterTransferDMA K env s base (some h) (some x)).calls = [cfg] ∧
      cfg.intA = false ∧ cfg.intB = false ∧ cfg.nextDesc = some env.inst.toNat) ∧
    (SPI_MasterTransferDMA K env s base (some h) (some x)).calls.filter
        Call.isCreateDescriptor =
      [Call.DMA_CreateDescriptor env.inst.toNat
        { valid := true, swtrig := true, intA := true, intB := false, byteWidth := 4,
          srcInc := 0, dstInc := 0, transferCount := 1 }
        (if x.txData ≠ 0 then Addr.s_txLastData env.inst.toNat
         else Addr.s_txDummy_lastWord env.inst.toNat)
        (if env.txFifoEnabled then Addr.VFIFO_TXDATSPI env.inst.toNat
         else Addr.TXDATCTL base) none] := by
  have hsplit := lastWordSplit_of K env.config x hfa hsz
  rw [transfer_of_accepted K env s base h x hacc]
  unfold transferBody txProgram
  by_cases htx : x.txData = 0 <;> by_cases hw : env.config.dataWidth > 7 <;>
    by_cases hf : env.txFifoEnabled = true <;>
    by_cases hr : env.submitTx = K.kStatus_Success <;>
    simp [hsplit, htx, hw, hf, hr, txSubmits, Call.txSubmit?, Call.isCreateDescriptor,
      DMA_PrepareTransfer, rxTransferConfig, lastWordXfercfg]

/-- Witness of C21 on the receive-only request `xferRxOnly10FA`, 8-bit frames, FIFO
disabled. -/
theorem C21_chained_descriptor_witness :
    (txSubmits (SPI_MasterTransferDMA sdkHeaders env8 scratch0 base0 (some handle0)
      (some xferRxOnly10FA)).calls).map dma_transfer_config_t.intA = [false] ∧
    (txSubmits (SPI_MasterTransferDMA sdkHeaders env8 scratch0 base0 (some handle0)
      (some xferRxOnly10FA)).calls).map dma_transfer_config_t.intB = [false] ∧
    (SPI_MasterTransferDMA sdkHeaders env8 scratch0 base0 (some handle0)
      (some xferRxOnly10FA)).calls.filter Call.isCreateDescriptor =
      [Call.DMA_CreateDescriptor 0
        { valid := true, swtrig := true, intA := true, intB := false, byteWidth := 4,
          srcInc := 0, dstInc := 0, transferCount := 1 }
        (Addr.s_txDummy_lastWord 0) (Addr.TXDATCTL base0) none] := by
  have hw := C21_chained_descriptor sdkHeaders env8 scratch0 base0 handle0 xferRxOnly10FA
    ⟨by decide, by decide, by decide⟩ (by decide) (by decide)
  obtain ⟨⟨cfg, h1, h2, h3, _⟩, h5⟩ := hw
  refine ⟨?_, ?_, h5⟩
  · rw [h1]
    simpa using h2
  · rw [h1]
    simpa using h3


/-- C22.  The headers' three flag constants, deassert mask and length field are taken to
lie in bits 16..31.  For an accepted request with a transmit buffer, the frame-assert
flag and a byte count above the threshold of the data width: the low 16 bits of the
cached last word `s_txLastData[instance]` are the packed final data, its bits 16..31 are
those of the control word of lines 275-277, which has frame-assert set, and control word
and data share no bit; the only control write, made when the transmit submission
succeeds, carries that control word with the frame-assert bits cleared and nothing else
changed, as a whole to `base->TXCTL` or, with the FIFO enabled, as its upper 16 bits to
the FIFO control half. -/
theorem C22_last_word_fields (K : Headers) (env : Env) (s : Scratch) (base : Nat)
    (h : spi_dma_handle_t) (x : spi_transfer_t) (hacc : Accepted env h x)
    (htx : x.txData ≠ 0) (hfa : x.configFlags &&& u32 K.kSPI_FrameAssert ≠ 0)
    (hsz : if env.config.dataWidth > 7 then x.dataSize > 2 else x.dataSize > 1)
    (hFD : K.kSPI_FrameDelay % 2 ^ 16 = 0) (hFA : K.kSPI_FrameAssert % 2 ^ 16 = 0)
    (hRI : K.kSPI_ReceiveIgnore % 2 ^ 16 = 0) (hD : K.SPI_DEASSERT_ALL % 2 ^ 16 = 0)
    (hL : K.SPI_TXDATCTL_LEN env.config.dataWidth % 2 ^ 16 = 0) :
    (SPI_MasterTransferDMA K env s base (some h) (some x)).scratch.s_txLastData
        env.inst.toNat % 2 ^ 16 = packedLastData env env.config x ∧
    (SPI_MasterTransferDMA K env s base (some h) (some x)).scratch.s_txLastData
        env.inst.toNat >>> 16 = controlWord K env.config x >>> 16 ∧
    controlWord K env.config x &&& u32 K.kSPI_FrameAssert = u32 K.kSPI_FrameAssert ∧
    controlWord K env.config x &&& packedLastData env env.config x = 0 ∧
    (SPI_MasterTransferDMA K env s base (some h) (some x)).calls.filter
        Call.isControlWrite =
      (if env.submitTx = K.kStatus_Success then
        [if env.txFifoEnabled then
           Call.write_FIFO_TXCTL env.inst.toNat
             ((controlWord K env.config x &&& not32 (u32 K.kSPI_FrameAssert)) >>> 16)
         else
           Call.write_TXCTL base
             (controlWord K env.config x &&& not32 (u32 K.kSPI_FrameAssert))]
       else []) ∧
    (controlWord K env.config x &&& not32 (u32 K.kSPI_FrameAssert)) |||
        u32 K.kSPI_FrameAssert = controlWord K env.config x ∧
    (controlWord K env.config x &&& not32 (u32 K.kSPI_FrameAssert)) &&&
        u32 K.kSPI_FrameAssert = 0 := by
  have hsplit := lastWordSplit_of K env.config x hfa hsz
  have hbit := controlWord_frameAssert K env.config x hfa
  have hlow := controlWord_low16 K env.config x hFD hFA hRI hD hL
  have hfields := lor_fields (controlWord K env.config x) (packedLastData env env.config x)
    hlow (packedLastData_lt env env.config x)
  have hlast : (SPI_MasterTransferDMA K env s base (some h) (some x)).scratch.s_txLastData
      env.inst.toNat = controlWord K env.config x ||| packedLastData env env.config x := by
    rw [transfer_of_accepted K env s base h x hacc]
    unfold transferBody txProgram packedLastData
    by_cases hw : env.config.dataWidth > 7 <;> by_cases hf : env.txFifoEnabled = true <;>
      by_cases hr : env.submitTx = K.kStatus_Success <;>
      simp [hsplit, htx, hw, hf, hr, setAt, Nat.lor_assoc]
  have hhalf : ((controlWord K env.config x &&& not32 (u32 K.kSPI_FrameAssert)) >>> 16) %
      2 ^ 16 = (controlWord K env.config x &&& not32 (u32 K.kSPI_FrameAssert)) >>> 16 := by
    apply Nat.mod_eq_of_lt
    have h1 : controlWord K env.config x &&& not32 (u32 K.kSPI_FrameAssert) ≤
        controlWord K env.config x := Nat.and_le_left
    have h2 := controlWord_lt K env.config x
    rw [Nat.shiftRight_eq_div_pow]
    omega
  refine ⟨?_, ?_, hbit, hfields.2.2, ?_,
    clear_then_set _ _ (controlWord_lt K env.config x) (u32_lt _) hbit,
    and_not32_and _ _ (u32_lt _)⟩
  · rw [hlast]
    exact hfields.1
  · rw [hlast]
    exact hfields.2.1
  · rw [transfer_of_accepted K env s base h x hacc, ← hhalf]
    unfold transferBody txProgram
    by_cases hw : env.config.dataWidth > 7 <;> by_cases hf : env.txFifoEnabled = true <;>
      by_cases hr : env.submitTx = K.kStatus_Success <;>
      simp [hsplit, htx, hw, hf, hr, Call.isControlWrite]

/-- Witness of C22 on the SDK header values: 16-bit frames, 5 bytes with frame-assert;
the bytes at indices 4 and 3 are `0x55` and `0x54`. -/
theorem C22_last_word_fields_witness :
    (SPI_MasterTransferDMA sdkHeaders env16 scratch0 base0 (some handle0)
      (some xfer5)).scratch.s_txLastData 0 % 2 ^ 16 = 0x5554 ∧
    (SPI_MasterTransferDMA sdkHeaders env16 scratch0 base0 (some handle0)
      (some xfer5)).scratch.s_txLastData 0 >>> 16 =
      controlWord sdkHeaders env16.config xfer5 >>> 16 ∧
    (SPI_MasterTransferDMA sdkHeaders env16 scratch0 base0 (some handle0)
      (some xfer5)).calls.filter Call.isControlWrite =
      [Call.write_TXCTL base0 (controlWord sdkHeaders env16.config xfer5 &&& not32 0x100000)] := by
  have hw := C22_last_word_fields sdkHeaders env16 scratch0 base0 handle0 xfer5
    ⟨by decide, by decide, by decide⟩ (by decide) (by decide) (by decide) (by decide)
    (by decide) (by decide) (by decide) (by decide)
  obtain ⟨h1, h2, _, _, h5, _⟩ := hw
  have hdata : packedLastData env16 env16.config xfer5 = 0x5554 := by decide
  exact ⟨h1.trans hdata, h2, h5⟩

/-- C23 (defect of the driver, evaluated on the SDK header values).  The receive-only
request `xferRxOnly10FA` has no transmit buffer, the frame-assert flag and 10 bytes; it
is accepted and returns success, and on 8-bit frames the driver reads `txData[9]`, on
16-bit frames `txData[9]` and `txData[8]`, through the null pointer: the cached last
word receives the byte found at address 9 (and 8). -/
theorem C23_null_transmit_buffer_indexed :
    xferRxOnly10FA.txData = 0 ∧
    (SPI_MasterTransferDMA sdkHeaders env8 scratch0 base0 (some handle0)
      (some xferRxOnly10FA)).status = sdkHeaders.kStatus_Success ∧
    (SPI_MasterTransferDMA sdkHeaders env8 scratch0 base0 (some handle0)
      (some xferRxOnly10FA)).txLoads = [9] ∧
    (SPI_MasterTransferDMA sdkHeaders env8 scratch0 base0 (some handle0)
      (some xferRxOnly10FA)).scratch.s_txLastData 0 =
      controlWord sdkHeaders env8.config xferRxOnly10FA ||| env8.mem 9 % 256 ∧
    (SPI_MasterTransferDMA sdkHeaders env16 scratch0 base0 (some handle0)
      (some xferRxOnly10FA)).txLoads = [9, 8] ∧
    (SPI_MasterTransferDMA sdkHeaders env16 scratch0 base0 (some handle0)
      (some xferRxOnly10FA)).scratch.s_txLastData 0 =
      (controlWord sdkHeaders env16.config xferRxOnly10FA ||| ((env16.mem 9 % 256) <<< 8))
        ||| env16.mem 8 % 256 := by
  decide

end SpiDma
